import Mathlib

/-!
Verification of the PySrDaliGateway client library.

This file gives a shallow embedding, in Lean 4, of the parts of the
library that the verified properties talk about:

* the per-command request batching engine (`DaliGateway.add_request`,
  `DaliGateway._flush_batch` in `gateway.py`);
* the discovery cryptor (`MessageCryptor.encrypt_data` /
  `MessageCryptor.decrypt_data` in `discovery.py`), including a complete
  executable model of AES-128 (FIPS-197) and CTR mode, byte-level hex
  and UTF-8 codecs;
* the discovery engine (`DaliGatewayDiscovery._run_discovery`,
  `_process_gateway_data`);
* the MQTT session connect failure paths (`DaliGateway.connect`,
  `ErrorCodes.get_mqtt_error_code`);
* the inbound message demultiplexer (`DaliGateway._on_message`) and its
  per-command handlers;
* `Group.turn_on` property construction (`group.py`).

Python dictionaries are modelled as insertion-ordered association lists
(CPython dicts preserve insertion order; overwriting a key keeps its
position).  Python integers are `Int`, byte values are `Nat` (< 256),
strings are Lean `String` or byte lists where the byte level matters.
Fallible Python code (statements that can raise) is modelled with
`Option`/`Except`, and `try/except` blocks by explicit matches.
-/

set_option maxRecDepth 100000

namespace PySrDali

/-- JSON values, the result of `json.loads`. Numbers are modelled as
integers (no claim in this development involves fractional JSON
numbers). -/
inductive JVal where
  | null : JVal
  | jbool : Bool → JVal
  | jnum : Int → JVal
  | jstr : String → JVal
  | jarr : List JVal → JVal
  | jobj : List (String × JVal) → JVal

/-- Python truthiness of a JSON-decoded value (`if x:`): `None`, `False`,
`0`, `""`, `[]`, `{}` are falsy. -/
def JVal.truthy : JVal → Bool
  | .null => false
  | .jbool b => b
  | .jnum n => n ≠ 0
  | .jstr s => s ≠ ""
  | .jarr xs => !xs.isEmpty
  | .jobj fs => !fs.isEmpty

/-- `d.get(k)` on an insertion-ordered dict (association list): first
binding wins (dict keys are unique by construction). -/
def dictGet : List (String × α) → String → Option α
  | [], _ => none
  | p :: d, k => if p.1 = k then some p.2 else dictGet d k

/-- `d[k] = v` on an insertion-ordered dict: overwriting an existing key
keeps its position, a new key is appended at the end (CPython dict
semantics). -/
def dictSet : List (String × α) → String → α → List (String × α)
  | [], k, v => [(k, v)]
  | p :: d, k, v => if p.1 = k then (k, v) :: d else p :: dictSet d k v

/-! ## Request batching (`gateway.py`, lines 78–125)

State of the dispatcher: `_pending_requests : dict[str, dict[str, dict]]`
(per command, device-key → latest payload) and `_batch_timer : dict[str,
TimerHandle]`.  A timer handle carries no data relevant to the model, so
`timers` is the ordered list of command names that currently have a
scheduled timer. -/

structure GwState where
  pending : List (String × List (String × JVal))
  timers : List String

/-- The initial dispatcher state (`__init__`). -/
def initState : GwState := ⟨[], []⟩

/-- `DaliGateway._get_device_key`: `f"{dev_type}_{channel}_{address}"`. -/
def deviceKey (dev_type : String) (channel address : Int) : String :=
  dev_type ++ "_" ++ toString channel ++ "_" ++ toString address

/-- `DaliGateway.add_request` (gateway.py 85–97): ensure the per-command
dict exists, store the payload under the device key (overwriting any
prior entry), and schedule a timer if none is recorded for `cmd`
(`self._batch_timer.get(cmd) is None`). -/
def addRequest (st : GwState) (cmd dev_type : String) (channel address : Int)
    (data : JVal) : GwState :=
  let pend0 :=
    if (dictGet st.pending cmd).isSome then st.pending
    else st.pending ++ [(cmd, [])]
  ⟨dictSet pend0 cmd
     (dictSet ((dictGet pend0 cmd).getD []) (deviceKey dev_type channel address) data),
   if cmd ∈ st.timers then st.timers else st.timers ++ [cmd]⟩

/-- One outbound MQTT publication `{cmd, msgId, gwSn, data}` built by
`_flush_batch`. -/
structure PubMsg where
  cmd : String
  msgId : String
  gwSn : String
  data : List JVal

/-- Side effects of `_flush_batch`, in source statement order. -/
inductive FlushEvent where
  | publish : PubMsg → FlushEvent
  | clearPending : String → FlushEvent
  | popTimer : String → FlushEvent

/-- Payload-free tag of a flush event (used to state ordering facts). -/
def FlushEvent.tag : FlushEvent → Nat
  | .publish _ => 0
  | .clearPending _ => 1
  | .popTimer _ => 2

/-- `DaliGateway._flush_batch` (gateway.py 99–125).  `msgId` is
`str(int(time.time()))` in the source; the wall clock enters the model as
the `now` argument.  Returns the new state together with the list of side
effects in the order the source performs them: the batch is snapshotted
and **published first**, then the pending map is cleared (the `cmd` key
keeps an empty dict) and the timer handle popped. -/
def flushBatch (gwSn now : String) (st : GwState) (cmd : String) :
    GwState × List FlushEvent :=
  match dictGet st.pending cmd with
  | none => (st, [])
  | some [] => (st, [])
  | some d =>
      (⟨dictSet st.pending cmd [], st.timers.erase cmd⟩,
       [.publish ⟨cmd, now, gwSn, d.map (fun p => p.2)⟩,
        .clearPending cmd, .popTimer cmd])

/-- The publications contained in a flush event trace. -/
def publishes (evs : List FlushEvent) : List PubMsg :=
  evs.filterMap (fun e => match e with | .publish m => some m | _ => none)

/-- `DaliGateway.command_read_dev` payload (gateway.py 725–733). -/
def readDevPayload (dev_type : String) (channel address : Int) : JVal :=
  .jobj [("devType", .jstr dev_type), ("channel", .jnum channel),
         ("address", .jnum address)]

/-- `command_read_dev` itself: `add_request("readDev", …)`. -/
def commandReadDev (st : GwState) (dev_type : String) (channel address : Int) :
    GwState :=
  addRequest st "readDev" dev_type channel address
    (readDevPayload dev_type channel address)

/-- One argument tuple of an `add_request` call (for a fixed command). -/
structure Req where
  dev_type : String
  channel : Int
  address : Int
  data : JVal

/-- The (device-key, payload) pair a request contributes to the batch. -/
def reqKV (r : Req) : String × JVal :=
  (deviceKey r.dev_type r.channel r.address, r.data)

/-- A sequence of `add_request` calls for one command within one window. -/
def applyAdds (st : GwState) (cmd : String) (reqs : List Req) : GwState :=
  reqs.foldl (fun s r => addRequest s cmd r.dev_type r.channel r.address r.data) st

/-- Specification-side coalescing of a request sequence: each new entry
overwrites any prior entry with the same key, keeping its position;
fresh keys append in insertion order. -/
def coalesce (reqs : List (String × JVal)) : List (String × JVal) :=
  reqs.foldl (fun acc kv => dictSet acc kv.1 kv.2) []

/-- `_flush_batch` when a re-entrant `add_request` for the same command
happens during the publish call.  Per source order: the batch is
snapshotted and published from the un-cleared state, then the re-entrant
`add_request` mutates the pending map (the timer handle is still
recorded at that point), and only then do `clear()` and `pop()` run on
the mutated state.  The early-return branches publish nothing, so no
re-entrancy can occur there. -/
def flushWithReentrantAdd (gwSn now : String) (st : GwState) (cmd : String)
    (r : Req) : GwState × List FlushEvent :=
  match dictGet st.pending cmd with
  | none => (st, [])
  | some [] => (st, [])
  | some d =>
      let st1 := addRequest st cmd r.dev_type r.channel r.address r.data
      (⟨dictSet st1.pending cmd [], st1.timers.erase cmd⟩,
       [.publish ⟨cmd, now, gwSn, d.map (fun p => p.2)⟩,
        .clearPending cmd, .popTimer cmd])

/-- The ordering property asserted by the specification: in a flush
event trace, every `clearPending` (tag 1) occurs strictly before every
`publish` (tag 0). -/
def clearBeforePublish (evs : List FlushEvent) : Prop :=
  ∀ i j : Fin evs.length, (evs.get i).tag = 1 → (evs.get j).tag = 0 →
    (i : ℕ) < (j : ℕ)

/-- A dispatcher step: an `add_request` call or a timer firing
(`_flush_batch`). -/
inductive Step where
  | add : String → String → Int → Int → JVal → Step
  | flush : String → Step

/-- Effect of one step on the dispatcher state. -/
def applyStep (gwSn now : String) (st : GwState) : Step → GwState
  | .add cmd dt ch ad data => addRequest st cmd dt ch ad data
  | .flush cmd => (flushBatch gwSn now st cmd).1

/-- The dispatcher state after a sequence of steps from `__init__`. -/
def runSteps (gwSn now : String) (steps : List Step) : GwState :=
  steps.foldl (applyStep gwSn now) initState

/-- The pending map for `cmd` exists and is non-empty. -/
def pendingNonEmpty (st : GwState) (cmd : String) : Prop :=
  ∃ d, dictGet st.pending cmd = some d ∧ d ≠ []

/-- A batch timer handle is recorded for `cmd`. -/
def timerRecorded (st : GwState) (cmd : String) : Prop :=
  cmd ∈ st.timers


/-! ### Association-list lemmas -/

theorem dictGet_set_self (d : List (String × α)) (k : String) (v : α) :
    dictGet (dictSet d k v) k = some v := by
  induction d with
  | nil => simp [dictSet, dictGet]
  | cons p d ih =>
    by_cases h : p.1 = k
    · simp [dictSet, dictGet, h]
    · simp [dictSet, dictGet, h, ih]

theorem dictGet_set_ne (d : List (String × α)) (k k' : String) (v : α)
    (h : k' ≠ k) : dictGet (dictSet d k v) k' = dictGet d k' := by
  have hkk : k ≠ k' := fun hh => h hh.symm
  induction d with
  | nil => simp [dictSet, dictGet, hkk]
  | cons p d ih =>
    by_cases hp : p.1 = k
    · have hp' : p.1 ≠ k' := by rw [hp]; exact hkk
      simp [dictSet, dictGet, hp, hp', hkk]
    · by_cases hp' : p.1 = k'
      · simp [dictSet, dictGet, hp, hp', h]
      · simp [dictSet, dictGet, hp, hp', ih]

theorem dictSet_ne_nil (d : List (String × α)) (k : String) (v : α) :
    dictSet d k v ≠ [] := by
  cases d with
  | nil => simp [dictSet]
  | cons p d => by_cases h : p.1 = k <;> simp [dictSet, h]

theorem dictGet_append_not_found (d : List (String × α)) (k : String) (v : α) :
    dictGet d k = none → dictGet (d ++ [(k, v)]) k = some v := by
  induction d with
  | nil => intro _; simp [dictGet]
  | cons p d ih =>
    intro h
    by_cases hp : p.1 = k
    · simp [dictGet, hp] at h
    · simp only [dictGet, hp, if_false] at h
      simp [dictGet, hp, ih h]

theorem dictGet_append_ne (d : List (String × α)) (k k' : String) (v : α)
    (h : k' ≠ k) : dictGet (d ++ [(k, v)]) k' = dictGet d k' := by
  have hkk : k ≠ k' := fun hh => h hh.symm
  induction d with
  | nil => simp [dictGet, hkk]
  | cons p d ih =>
    by_cases hp : p.1 = k'
    · simp [dictGet, hp]
    · simp [dictGet, hp, ih]

/-! ### `add_request` lemmas -/

/-- Effect of `add_request` on the pending map of its own command: the
payload is stored under the device key, overwriting any prior entry
(last write wins, position preserved — `dictSet` semantics). -/
theorem addRequest_pending_self (st : GwState) (cmd dt : String)
    (ch ad : Int) (data : JVal) :
    dictGet (addRequest st cmd dt ch ad data).pending cmd
      = some (dictSet ((dictGet st.pending cmd).getD []) (deviceKey dt ch ad) data) := by
  cases h : dictGet st.pending cmd with
  | some d => simp [addRequest, h, dictGet_set_self]
  | none =>
    have h0 : dictGet (st.pending ++ [(cmd, ([] : List (String × JVal)))]) cmd = some [] :=
      dictGet_append_not_found st.pending cmd [] h
    simp [addRequest, h, h0, dictGet_set_self]

theorem addRequest_pending_ne (st : GwState) (cmd cmd' dt : String)
    (ch ad : Int) (data : JVal) (h : cmd' ≠ cmd) :
    dictGet (addRequest st cmd dt ch ad data).pending cmd'
      = dictGet st.pending cmd' := by
  cases hc : dictGet st.pending cmd with
  | some d => simp [addRequest, hc, dictGet_set_ne _ _ _ _ h]
  | none =>
    simp [addRequest, hc, dictGet_set_ne _ _ _ _ h, dictGet_append_ne _ _ _ _ h]

theorem addRequest_timers (st : GwState) (cmd dt : String) (ch ad : Int)
    (data : JVal) :
    (addRequest st cmd dt ch ad data).timers
      = if cmd ∈ st.timers then st.timers else st.timers ++ [cmd] := by
  cases hc : dictGet st.pending cmd with
  | some d => simp [addRequest, hc]
  | none => simp [addRequest, hc]

/-- `add_request`-sequence fusion (accumulator form): requests fold into
the per-command dict exactly by repeated `dictSet`. -/
theorem applyAdds_pending_acc (cmd : String) (reqs : List Req) :
    ∀ (st : GwState) (acc : List (String × JVal)),
      dictGet st.pending cmd = some acc →
      dictGet (applyAdds st cmd reqs).pending cmd
        = some (reqs.foldl (fun a r => dictSet a (reqKV r).1 (reqKV r).2) acc) := by
  induction reqs with
  | nil => intro st acc h; simpa [applyAdds] using h
  | cons r rs ih =>
    intro st acc h
    have h1 := addRequest_pending_self st cmd r.dev_type r.channel r.address r.data
    rw [h] at h1
    have h2 := ih (addRequest st cmd r.dev_type r.channel r.address r.data) _ h1
    simpa [applyAdds, reqKV] using h2

/-- A non-empty `add_request` sequence starting with no pending entry for
`cmd` leaves exactly the coalescing (last write wins, insertion order
preserved) of the request sequence in the pending map. -/
theorem applyAdds_pending (st0 : GwState) (cmd : String) (r : Req) (rs : List Req)
    (h : dictGet st0.pending cmd = none) :
    dictGet (applyAdds st0 cmd (r :: rs)).pending cmd
      = some (coalesce ((r :: rs).map reqKV)) := by
  have h1 := addRequest_pending_self st0 cmd r.dev_type r.channel r.address r.data
  rw [h] at h1
  have h2 := applyAdds_pending_acc cmd rs
    (addRequest st0 cmd r.dev_type r.channel r.address r.data) _ h1
  have h3 : coalesce ((r :: rs).map reqKV)
      = rs.foldl (fun a x => dictSet a (reqKV x).1 (reqKV x).2)
          (dictSet [] (deviceKey r.dev_type r.channel r.address) r.data) := by
    simp [coalesce, List.foldl_map, reqKV]
  rw [h3]
  simpa [applyAdds, reqKV] using h2

/-! ### `_flush_batch` lemmas -/

/-- Effect of `_flush_batch` on a non-empty batch: one publication whose
`data` is the pending payloads in insertion order, then the pending map
for `cmd` is left as an (existing but) empty dict and the timer handle
dropped. -/
theorem flushBatch_nonempty (gwSn now : String) (st : GwState) (cmd : String)
    (d : List (String × JVal)) (hd : dictGet st.pending cmd = some d)
    (hne : d ≠ []) :
    flushBatch gwSn now st cmd
      = (⟨dictSet st.pending cmd [], st.timers.erase cmd⟩,
         [.publish ⟨cmd, now, gwSn, d.map (fun p => p.2)⟩,
          .clearPending cmd, .popTimer cmd]) := by
  cases d with
  | nil => exact absurd rfl hne
  | cons p rest => simp [flushBatch, hd]

/-- `_flush_batch` on an absent or empty batch: publishes nothing,
changes nothing (the early return at gateway.py line 100–101). -/
theorem flushBatch_empty (gwSn now : String) (st : GwState) (cmd : String)
    (h : ¬ pendingNonEmpty st cmd) :
    flushBatch gwSn now st cmd = (st, []) := by
  cases hd : dictGet st.pending cmd with
  | none => simp [flushBatch, hd]
  | some d =>
    cases d with
    | nil => simp [flushBatch, hd]
    | cons p rest => exact absurd ⟨p :: rest, hd, by simp⟩ h

/-! ### Dispatcher well-formedness invariant -/

/-- Auxiliary invariant carried through the induction for the timer
bookkeeping: timers are duplicate-free, and a timer is recorded for a
command exactly when its pending map is non-empty. -/
def GwWf (st : GwState) : Prop :=
  st.timers.Nodup ∧ ∀ cmd, timerRecorded st cmd ↔ pendingNonEmpty st cmd

theorem gwWf_init : GwWf initState := by
  refine ⟨by simp [initState], fun cmd => ?_⟩
  simp [initState, timerRecorded, pendingNonEmpty, dictGet]

theorem gwWf_add (st : GwState) (cmd dt : String) (ch ad : Int) (data : JVal)
    (h : GwWf st) : GwWf (addRequest st cmd dt ch ad data) := by
  obtain ⟨hnd, hiff⟩ := h
  constructor
  · rw [addRequest_timers]
    by_cases hc : cmd ∈ st.timers
    · simpa [hc]
    · simp [hc, List.nodup_append, hnd]
  · intro c
    unfold timerRecorded
    rw [addRequest_timers]
    by_cases hce : c = cmd
    · subst hce
      have hmem : c ∈ (if c ∈ st.timers then st.timers else st.timers ++ [c]) := by
        by_cases hc : c ∈ st.timers <;> simp [hc]
      refine ⟨fun _ => ?_, fun _ => hmem⟩
      exact ⟨_, addRequest_pending_self st c dt ch ad data, dictSet_ne_nil _ _ _⟩
    · have hp := addRequest_pending_ne st cmd c dt ch ad data hce
      have hmem : (c ∈ (if cmd ∈ st.timers then st.timers else st.timers ++ [cmd]))
          ↔ c ∈ st.timers := by
        by_cases hc : cmd ∈ st.timers <;> simp [hc, hce]
      rw [hmem]
      unfold pendingNonEmpty
      rw [hp]
      exact hiff c

theorem gwWf_flush (gwSn now : String) (st : GwState) (cmd : String)
    (h : GwWf st) : GwWf (flushBatch gwSn now st cmd).1 := by
  obtain ⟨hnd, hiff⟩ := h
  by_cases hne : pendingNonEmpty st cmd
  · obtain ⟨d, hd, hdne⟩ := hne
    rw [flushBatch_nonempty gwSn now st cmd d hd hdne]
    refine ⟨hnd.erase cmd, fun c => ?_⟩
    by_cases hce : c = cmd
    · subst hce
      constructor
      · intro hmem
        exact absurd hmem (hnd.not_mem_erase)
      · rintro ⟨d', hd', hd'ne⟩
        rw [dictGet_set_self] at hd'
        cases hd'
        simp at hd'ne
    · unfold timerRecorded pendingNonEmpty
      simp only
      rw [dictGet_set_ne _ _ _ _ hce, List.mem_erase_of_ne hce]
      exact hiff c
  · rw [flushBatch_empty gwSn now st cmd hne]
    exact ⟨hnd, hiff⟩

theorem gwWf_run (gwSn now : String) (steps : List Step) :
    GwWf (runSteps gwSn now steps) := by
  suffices H : ∀ (st : GwState), GwWf st → GwWf (steps.foldl (applyStep gwSn now) st) from
    H initState gwWf_init
  induction steps with
  | nil => intro st h; exact h
  | cons s rest ih =>
    intro st h
    cases s with
    | add cmd dt ch ad data => exact ih _ (gwWf_add st cmd dt ch ad data h)
    | flush cmd => exact ih _ (gwWf_flush gwSn now st cmd h)

/-- Trace and state shape of `flushWithReentrantAdd` on a non-empty
batch: the publication carries the original snapshot; the `clear()` that
follows the re-entrant `add_request` empties the pending map. -/
theorem flushWithReentrantAdd_nonempty (gwSn now : String) (st : GwState)
    (cmd : String) (d : List (String × JVal)) (r : Req)
    (hd : dictGet st.pending cmd = some d) (hne : d ≠ []) :
    flushWithReentrantAdd gwSn now st cmd r
      = (⟨dictSet (addRequest st cmd r.dev_type r.channel r.address r.data).pending cmd [],
          (addRequest st cmd r.dev_type r.channel r.address r.data).timers.erase cmd⟩,
         [.publish ⟨cmd, now, gwSn, d.map (fun p => p.2)⟩,
          .clearPending cmd, .popTimer cmd]) := by
  cases d with
  | nil => exact absurd rfl hne
  | cons p rest => simp [flushWithReentrantAdd, hd]

/-- C1: within one batch window, each `add_request` overwrites any prior
entry with the same device key (last write wins, position preserved); a
non-empty request sequence leaves exactly its coalescing in the pending
map; firing the timer publishes exactly one message whose `data` array
is the pending payloads in insertion order and leaves `pending[cmd]`
empty; in particular `readDev("0101",0,1)`, `readDev("0101",0,2)`,
`readDev("0101",0,1)` in one window yield one publication with two data
entries, for `(0,1)` then `(0,2)`. -/
theorem c1_batch_coalescing :
    (∀ (st : GwState) (cmd dt : String) (ch ad : Int) (data : JVal),
        dictGet (addRequest st cmd dt ch ad data).pending cmd
          = some (dictSet ((dictGet st.pending cmd).getD [])
              (deviceKey dt ch ad) data))
    ∧ (∀ (st0 : GwState) (cmd : String) (r : Req) (rs : List Req),
        dictGet st0.pending cmd = none →
        dictGet (applyAdds st0 cmd (r :: rs)).pending cmd
          = some (coalesce ((r :: rs).map reqKV)))
    ∧ (∀ (gwSn now : String) (st : GwState) (cmd : String)
          (d : List (String × JVal)),
        dictGet st.pending cmd = some d → d ≠ [] →
        publishes (flushBatch gwSn now st cmd).2
            = [⟨cmd, now, gwSn, d.map (fun p => p.2)⟩]
          ∧ dictGet (flushBatch gwSn now st cmd).1.pending cmd = some [])
    ∧ (publishes (flushBatch "GW1" "1700000000"
          (commandReadDev (commandReadDev
            (commandReadDev initState "0101" 0 1) "0101" 0 2) "0101" 0 1)
          "readDev").2
        = [⟨"readDev", "1700000000", "GW1",
            [readDevPayload "0101" 0 1, readDevPayload "0101" 0 2]⟩]
       ∧ dictGet (flushBatch "GW1" "1700000000"
            (commandReadDev (commandReadDev
              (commandReadDev initState "0101" 0 1) "0101" 0 2) "0101" 0 1)
            "readDev").1.pending "readDev" = some []) := by
  refine ⟨addRequest_pending_self,
          fun st0 cmd r rs h => applyAdds_pending st0 cmd r rs h,
          fun gwSn now st cmd d hd hne => ?_, ?_, ?_⟩
  · rw [flushBatch_nonempty gwSn now st cmd d hd hne]
    exact ⟨rfl, dictGet_set_self _ _ _⟩
  · rfl
  · rfl

/-- C1 witness: the theorem instantiated at concrete inputs. -/
theorem c1_batch_coalescing_witness :
    dictGet (addRequest initState "readDev" "0101" 0 1
        (readDevPayload "0101" 0 1)).pending "readDev"
      = some (dictSet ((dictGet initState.pending "readDev").getD [])
          (deviceKey "0101" 0 1) (readDevPayload "0101" 0 1))
    ∧ dictGet (applyAdds initState "readDev"
        [⟨"0101", 0, 1, readDevPayload "0101" 0 1⟩]).pending "readDev"
      = some (coalesce ([(⟨"0101", 0, 1, readDevPayload "0101" 0 1⟩ : Req)].map reqKV))
    ∧ (publishes (flushBatch "GW1" "17"
          ⟨[("readDev", [("0101_0_1", readDevPayload "0101" 0 1)])], ["readDev"]⟩
          "readDev").2
        = [⟨"readDev", "17", "GW1", [readDevPayload "0101" 0 1]⟩]
       ∧ dictGet (flushBatch "GW1" "17"
            ⟨[("readDev", [("0101_0_1", readDevPayload "0101" 0 1)])], ["readDev"]⟩
            "readDev").1.pending "readDev" = some []) :=
  ⟨c1_batch_coalescing.1 initState "readDev" "0101" 0 1 (readDevPayload "0101" 0 1),
   c1_batch_coalescing.2.1 initState "readDev" ⟨"0101", 0, 1, readDevPayload "0101" 0 1⟩ [] rfl,
   c1_batch_coalescing.2.2.1 "GW1" "17"
     ⟨[("readDev", [("0101_0_1", readDevPayload "0101" 0 1)])], ["readDev"]⟩
     "readDev" [("0101_0_1", readDevPayload "0101" 0 1)] rfl (by simp)⟩

/-- C5 counterexample: at a concrete one-entry batch, the flush trace is
publish(0), clear(1), pop(2) — the pending map is *not* cleared, nor the
timer removed, before the publication, contradicting the claim. -/
theorem c5_counterexample :
    ¬ clearBeforePublish (flushBatch "GW1" "17"
        ⟨[("readDev", [("0101_0_1", readDevPayload "0101" 0 1)])], ["readDev"]⟩
        "readDev").2 := by
  intro h
  have h10 := h ⟨1, by decide⟩ ⟨0, by decide⟩ rfl rfl
  simp at h10

/-- C5 (amended): when the timer fires on a non-empty batch, the
payloads are snapshotted and published first; only afterwards is the
pending map cleared and the timer handle removed.  A re-entrant
`add_request` during publication does not double-send — the (already
fired) timer handle is still recorded, so no new timer is scheduled, and
there is still exactly one publication carrying the original snapshot —
but the re-entrant payload is discarded by the subsequent `clear()`. -/
theorem c5_flush_order_amended (gwSn now : String) (st : GwState)
    (cmd : String) (d : List (String × JVal)) (r : Req)
    (hd : dictGet st.pending cmd = some d) (hne : d ≠ [])
    (htimer : cmd ∈ st.timers) :
    ((flushBatch gwSn now st cmd).2.map FlushEvent.tag = [0, 1, 2])
    ∧ publishes (flushWithReentrantAdd gwSn now st cmd r).2
        = [⟨cmd, now, gwSn, d.map (fun p => p.2)⟩]
    ∧ (addRequest st cmd r.dev_type r.channel r.address r.data).timers = st.timers
    ∧ dictGet (flushWithReentrantAdd gwSn now st cmd r).1.pending cmd = some [] := by
  rw [flushBatch_nonempty gwSn now st cmd d hd hne,
      flushWithReentrantAdd_nonempty gwSn now st cmd d r hd hne,
      addRequest_timers]
  exact ⟨rfl, rfl, by simp [htimer], dictGet_set_self _ _ _⟩

/-- C5 witness: the amended theorem instantiated at a concrete batch. -/
theorem c5_flush_order_amended_witness :
    ((flushBatch "GW1" "17"
        ⟨[("readDev", [("0101_0_1", readDevPayload "0101" 0 1)])], ["readDev"]⟩
        "readDev").2.map FlushEvent.tag = [0, 1, 2])
    ∧ publishes (flushWithReentrantAdd "GW1" "17"
        ⟨[("readDev", [("0101_0_1", readDevPayload "0101" 0 1)])], ["readDev"]⟩
        "readDev" ⟨"0101", 0, 2, readDevPayload "0101" 0 2⟩).2
        = [⟨"readDev", "17", "GW1", [readDevPayload "0101" 0 1]⟩]
    ∧ (addRequest
        ⟨[("readDev", [("0101_0_1", readDevPayload "0101" 0 1)])], ["readDev"]⟩
        "readDev" "0101" 0 2 (readDevPayload "0101" 0 2)).timers = ["readDev"]
    ∧ dictGet (flushWithReentrantAdd "GW1" "17"
        ⟨[("readDev", [("0101_0_1", readDevPayload "0101" 0 1)])], ["readDev"]⟩
        "readDev" ⟨"0101", 0, 2, readDevPayload "0101" 0 2⟩).1.pending "readDev"
        = some [] :=
  c5_flush_order_amended "GW1" "17"
    ⟨[("readDev", [("0101_0_1", readDevPayload "0101" 0 1)])], ["readDev"]⟩
    "readDev" [("0101_0_1", readDevPayload "0101" 0 1)]
    ⟨"0101", 0, 2, readDevPayload "0101" 0 2⟩ rfl (by simp) (by simp)

/-- C10: after any sequence of `add_request` and `_flush_batch` steps
from the initial state, a batch timer handle is recorded for a command
iff that command\'s pending map is non-empty; and `_flush_batch` on a
command whose pending map is empty or absent publishes nothing and
leaves the state unchanged. -/
theorem c10_timer_iff_pending :
    (∀ (gwSn now : String) (steps : List Step) (cmd : String),
        timerRecorded (runSteps gwSn now steps) cmd
          ↔ pendingNonEmpty (runSteps gwSn now steps) cmd)
    ∧ (∀ (gwSn now : String) (st : GwState) (cmd : String),
        ¬ pendingNonEmpty st cmd → flushBatch gwSn now st cmd = (st, [])) :=
  ⟨fun gwSn now steps cmd => (gwWf_run gwSn now steps).2 cmd,
   fun gwSn now st cmd h => flushBatch_empty gwSn now st cmd h⟩

/-- C10 witness: the invariant and the empty-flush no-op at concrete
inputs. -/
theorem c10_timer_iff_pending_witness :
    (timerRecorded (runSteps "GW1" "17"
        [Step.add "readDev" "0101" 0 1 (readDevPayload "0101" 0 1)]) "readDev"
      ↔ pendingNonEmpty (runSteps "GW1" "17"
        [Step.add "readDev" "0101" 0 1 (readDevPayload "0101" 0 1)]) "readDev")
    ∧ flushBatch "GW1" "17" initState "readDev" = (initState, []) := by
  refine ⟨c10_timer_iff_pending.1 "GW1" "17"
            [Step.add "readDev" "0101" 0 1 (readDevPayload "0101" 0 1)] "readDev",
          c10_timer_iff_pending.2 "GW1" "17" initState "readDev" ?_⟩
  rintro ⟨d, hd, -⟩
  simp [initState, dictGet] at hd

/-! ## Cryptor (`discovery.py`, class `MessageCryptor`)

`encrypt_data`/`decrypt_data` run AES-128 in CTR mode (library
`cryptography`, algorithm per FIPS-197) with the fixed ASCII IV
`"0000000000101111"`, then hex-encode resp. hex-decode and UTF-8-decode.
The embedding works at byte level: a plaintext string is its list of
UTF-8 code units, a hex string its list of characters. -/

/-- Table lookup with default 0 (byte tables). -/
def nthByte (l : List Nat) (i : Nat) : Nat := l.getD i 0

/-- The AES S-box (FIPS-197 figure 7). -/
def sbox : List Nat :=
  [99, 124, 119, 123, 242, 107, 111, 197, 48, 1, 103, 43, 254, 215, 171, 118,
   202, 130, 201, 125, 250, 89, 71, 240, 173, 212, 162, 175, 156, 164, 114, 192,
   183, 253, 147, 38, 54, 63, 247, 204, 52, 165, 229, 241, 113, 216, 49, 21,
   4, 199, 35, 195, 24, 150, 5, 154, 7, 18, 128, 226, 235, 39, 178, 117,
   9, 131, 44, 26, 27, 110, 90, 160, 82, 59, 214, 179, 41, 227, 47, 132,
   83, 209, 0, 237, 32, 252, 177, 91, 106, 203, 190, 57, 74, 76, 88, 207,
   208, 239, 170, 251, 67, 77, 51, 133, 69, 249, 2, 127, 80, 60, 159, 168,
   81, 163, 64, 143, 146, 157, 56, 245, 188, 182, 218, 33, 16, 255, 243, 210,
   205, 12, 19, 236, 95, 151, 68, 23, 196, 167, 126, 61, 100, 93, 25, 115,
   96, 129, 79, 220, 34, 42, 144, 136, 70, 238, 184, 20, 222, 94, 11, 219,
   224, 50, 58, 10, 73, 6, 36, 92, 194, 211, 172, 98, 145, 149, 228, 121,
   231, 200, 55, 109, 141, 213, 78, 169, 108, 86, 244, 234, 101, 122, 174, 8,
   186, 120, 37, 46, 28, 166, 180, 198, 232, 221, 116, 31, 75, 189, 139, 138,
   112, 62, 181, 102, 72, 3, 246, 14, 97, 53, 87, 185, 134, 193, 29, 158,
   225, 248, 152, 17, 105, 217, 142, 148, 155, 30, 135, 233, 206, 85, 40, 223,
   140, 161, 137, 13, 191, 230, 66, 104, 65, 153, 45, 15, 176, 84, 187, 22]

/-- S-box substitution of one byte. -/
def subByte (b : Nat) : Nat := nthByte sbox b

/-- Multiplication by x in GF(2^8) modulo x^8+x^4+x^3+x+1. -/
def xtime (b : Nat) : Nat := ((2 * b) ^^^ (if 128 ≤ b then 27 else 0)) % 256

/-- ShiftRows on the flat 16-byte state (FIPS input order, column-major). -/
def shiftRows (s : List Nat) : List Nat :=
  [0, 5, 10, 15, 4, 9, 14, 3, 8, 13, 2, 7, 12, 1, 6, 11].map (nthByte s)

/-- MixColumns on one column. -/
def mixColumn (a0 a1 a2 a3 : Nat) : List Nat :=
  [xtime a0 ^^^ (xtime a1 ^^^ a1) ^^^ a2 ^^^ a3,
   a0 ^^^ xtime a1 ^^^ (xtime a2 ^^^ a2) ^^^ a3,
   a0 ^^^ a1 ^^^ xtime a2 ^^^ (xtime a3 ^^^ a3),
   (xtime a0 ^^^ a0) ^^^ a1 ^^^ a2 ^^^ xtime a3]

/-- MixColumns on the flat 16-byte state. -/
def mixColumns (s : List Nat) : List Nat :=
  mixColumn (nthByte s 0) (nthByte s 1) (nthByte s 2) (nthByte s 3)
  ++ mixColumn (nthByte s 4) (nthByte s 5) (nthByte s 6) (nthByte s 7)
  ++ mixColumn (nthByte s 8) (nthByte s 9) (nthByte s 10) (nthByte s 11)
  ++ mixColumn (nthByte s 12) (nthByte s 13) (nthByte s 14) (nthByte s 15)

/-- One 4-byte word of the key schedule. -/
structure W4 where
  a : Nat
  b : Nat
  c : Nat
  d : Nat

def rotW (w : W4) : W4 := ⟨w.b, w.c, w.d, w.a⟩

def subW (w : W4) : W4 := ⟨subByte w.a, subByte w.b, subByte w.c, subByte w.d⟩

def xorW (v w : W4) : W4 := ⟨v.a ^^^ w.a, v.b ^^^ w.b, v.c ^^^ w.c, v.d ^^^ w.d⟩

def wBytes (w : W4) : List Nat := [w.a, w.b, w.c, w.d]

/-- AES round constants. -/
def rcon : List Nat := [1, 2, 4, 8, 16, 32, 64, 128, 27, 54]

/-- Word i (0 ≤ i < 4) of the 16-byte cipher key. -/
def keyW (key : List Nat) (i : Nat) : W4 :=
  ⟨nthByte key (4 * i), nthByte key (4 * i + 1),
   nthByte key (4 * i + 2), nthByte key (4 * i + 3)⟩

/-- One step of the key schedule: append word `w[i]` (`i = j + 4`). -/
def expandStep (ws : List W4) (j : Nat) : List W4 :=
  ws ++ [xorW (ws.getD j ⟨0, 0, 0, 0⟩)
    (if (j + 4) % 4 = 0 then
      xorW (subW (rotW (ws.getD (j + 3) ⟨0, 0, 0, 0⟩)))
        ⟨nthByte rcon ((j + 4) / 4 - 1), 0, 0, 0⟩
    else ws.getD (j + 3) ⟨0, 0, 0, 0⟩)]

/-- The 44-word AES-128 key schedule (FIPS-197 §5.2). -/
def expandWords (key : List Nat) : List W4 :=
  (List.range 40).foldl expandStep [keyW key 0, keyW key 1, keyW key 2, keyW key 3]

/-- Round key r (0 ≤ r ≤ 10) as 16 bytes. -/
def roundKey (key : List Nat) (r : Nat) : List Nat :=
  wBytes ((expandWords key).getD (4 * r) ⟨0, 0, 0, 0⟩)
  ++ wBytes ((expandWords key).getD (4 * r + 1) ⟨0, 0, 0, 0⟩)
  ++ wBytes ((expandWords key).getD (4 * r + 2) ⟨0, 0, 0, 0⟩)
  ++ wBytes ((expandWords key).getD (4 * r + 3) ⟨0, 0, 0, 0⟩)

def addRoundKey (s rk : List Nat) : List Nat := List.zipWith (fun a b => a ^^^ b) s rk

/-- One middle AES round. -/
def aesRound (rk s : List Nat) : List Nat :=
  addRoundKey (mixColumns (shiftRows (s.map subByte))) rk

/-- The final AES round (no MixColumns). -/
def aesFinalRound (rk s : List Nat) : List Nat :=
  addRoundKey (shiftRows (s.map subByte)) rk

/-- AES-128 block encryption (FIPS-197 §5.1). -/
def aesEncryptBlock (key block : List Nat) : List Nat :=
  aesFinalRound (roundKey key 10)
    ((List.range 9).foldl (fun s r => aesRound (roundKey key (r + 1)) s)
      (addRoundKey block (roundKey key 0)))

/-- Big-endian 16-byte representation of a 128-bit counter. -/
def natToBytesBE16 (n : Nat) : List Nat :=
  (List.range 16).map (fun i => n / 256 ^ (15 - i) % 256)

/-- Big-endian value of a byte string. -/
def bytesToNatBE (l : List Nat) : Nat := l.foldl (fun acc b => 256 * acc + b) 0

/-- The fixed CTR IV `b"0000000000101111"` (ASCII). -/
def ivBytes : List Nat := [48, 48, 48, 48, 48, 48, 48, 48, 48, 48, 49, 48, 49, 49, 49, 49]

/-- `nblocks` blocks of AES-CTR keystream: the IV is the initial counter
value, incremented mod 2^128 per block. -/
def ctrKeystream (key : List Nat) (nblocks : Nat) : List Nat :=
  (List.range nblocks).flatMap
    (fun i => aesEncryptBlock key (natToBytesBE16 ((bytesToNatBE ivBytes + i) % 2 ^ 128)))

def xorBytes (a ks : List Nat) : List Nat := List.zipWith (fun x y => x ^^^ y) a ks

/-- CTR encryption/decryption: XOR the data with the keystream. -/
def ctrCrypt (key data : List Nat) : List Nat :=
  xorBytes data (ctrKeystream key ((data.length + 15) / 16))

/-- The hex alphabet used by `bytes.hex()` (lowercase). -/
def hexChars : List Char := "0123456789abcdef".toList

/-- `bytes.hex()`: two lowercase hex digits per byte. -/
def bytesToHex (bs : List Nat) : List Char :=
  bs.flatMap (fun b => [hexChars.getD (b / 16) '0', hexChars.getD (b % 16) '0'])

/-- Value of one hex digit (`bytes.fromhex` accepts both cases). -/
def hexVal (c : Char) : Option Nat :=
  if '0' ≤ c ∧ c ≤ '9' then some (c.toNat - 48)
  else if 'a' ≤ c ∧ c ≤ 'f' then some (c.toNat - 87)
  else if 'A' ≤ c ∧ c ≤ 'F' then some (c.toNat - 55)
  else none

/-- `bytes.fromhex`: pairs of hex digits; `none` models the `ValueError`
on an odd digit count or a non-hex character.  (CPython additionally
skips ASCII whitespace; no string in this development contains any.) -/
def hexDecode : List Char → Option (List Nat)
  | [] => some []
  | c1 :: c2 :: rest =>
    match hexVal c1, hexVal c2, hexDecode rest with
    | some h, some l, some bs => some ((16 * h + l) :: bs)
    | _, _, _ => none
  | [_] => none

/-- A UTF-8 continuation byte. -/
def isCont (b : Nat) : Bool := decide (128 ≤ b ∧ b ≤ 191)

/-- UTF-8 validity of a byte string (RFC 3629 table; what
`bytes.decode("utf-8")` accepts). -/
def utf8Valid : List Nat → Bool
  | [] => true
  | b :: rest =>
    if b < 128 then utf8Valid rest
    else if 194 ≤ b ∧ b ≤ 223 then
      match rest with
      | c1 :: r => isCont c1 && utf8Valid r
      | [] => false
    else if b = 224 then
      match rest with
      | c1 :: c2 :: r => decide (160 ≤ c1 ∧ c1 ≤ 191) && isCont c2 && utf8Valid r
      | _ => false
    else if (225 ≤ b ∧ b ≤ 236) ∨ b = 238 ∨ b = 239 then
      match rest with
      | c1 :: c2 :: r => isCont c1 && isCont c2 && utf8Valid r
      | _ => false
    else if b = 237 then
      match rest with
      | c1 :: c2 :: r => decide (128 ≤ c1 ∧ c1 ≤ 159) && isCont c2 && utf8Valid r
      | _ => false
    else if b = 240 then
      match rest with
      | c1 :: c2 :: c3 :: r =>
        decide (144 ≤ c1 ∧ c1 ≤ 191) && isCont c2 && isCont c3 && utf8Valid r
      | _ => false
    else if 241 ≤ b ∧ b ≤ 243 then
      match rest with
      | c1 :: c2 :: c3 :: r => isCont c1 && isCont c2 && isCont c3 && utf8Valid r
      | _ => false
    else if b = 244 then
      match rest with
      | c1 :: c2 :: c3 :: r =>
        decide (128 ≤ c1 ∧ c1 ≤ 143) && isCont c2 && isCont c3 && utf8Valid r
      | _ => false
    else false

/-- The master key `MessageCryptor.SR_KEY = "SR-DALI-GW-HASYS"` (ASCII). -/
def srKeyBytes : List Nat := [83, 82, 45, 68, 65, 76, 73, 45, 71, 87, 45, 72, 65, 83, 89, 83]

/-- `MessageCryptor.encrypt_data` at byte level: UTF-8 plaintext bytes
are XORed with the AES-CTR keystream and hex-encoded (lowercase). -/
def encrypt_data (data key : List Nat) : List Char := bytesToHex (ctrCrypt key data)

/-- `MessageCryptor.decrypt_data`: `bytes.fromhex` (`none` models the
`ValueError` on malformed hex), CTR-XOR with the same keystream, then
`.decode("utf-8")` (`none` models the `UnicodeDecodeError` on invalid
UTF-8). -/
def decrypt_data (encHex : List Char) (key : List Nat) : Option (List Nat) :=
  match hexDecode encHex with
  | none => none
  | some ct =>
    if utf8Valid (ctrCrypt key ct) then some (ctrCrypt key ct) else none

/-- Validation of the AES embedding against the FIPS-197 appendix C.1
test vector. -/
example :
    aesEncryptBlock
      [0, 1, 2, 3, 4, 5, 6, 7, 8, 9, 10, 11, 12, 13, 14, 15]
      [0, 17, 34, 51, 68, 85, 102, 119, 136, 153, 170, 187, 204, 221, 238, 255]
    = [105, 196, 224, 216, 106, 123, 4, 48, 216, 205, 183, 128, 112, 180, 197, 90] := by
  decide

/-! ### Byte bounds for the cryptor -/

/-- All entries of a byte string are bytes. -/
def BytesLt (l : List Nat) : Prop := ∀ x ∈ l, x < 256

theorem nthByte_lt (l : List Nat) (h : BytesLt l) (i : Nat) :
    nthByte l i < 256 := by
  induction l generalizing i with
  | nil => simp [nthByte, List.getD_nil]
  | cons x xs ih =>
    cases i with
    | zero => simpa [nthByte, List.getD_cons_zero] using h x (List.mem_cons_self x xs)
    | succ j =>
      simpa [nthByte, List.getD_cons_succ] using
        ih (fun y hy => h y (List.mem_cons_of_mem x hy)) j

theorem sbox_bound : BytesLt sbox := by unfold BytesLt; decide

theorem rcon_bound : BytesLt rcon := by unfold BytesLt; decide

theorem subByte_lt (b : Nat) : subByte b < 256 := nthByte_lt sbox sbox_bound b

theorem xtime_lt (b : Nat) : xtime b < 256 := Nat.mod_lt _ (by omega)

theorem xor_lt_256 {a b : Nat} (ha : a < 256) (hb : b < 256) : a ^^^ b < 256 := by
  have h8 : (2 : Nat) ^ 8 = 256 := by norm_num
  rw [← h8] at ha hb ⊢
  exact Nat.xor_lt_two_pow ha hb

theorem bytesLt_map_subByte (s : List Nat) : BytesLt (s.map subByte) := by
  intro x hx
  obtain ⟨y, -, rfl⟩ := List.mem_map.mp hx
  exact subByte_lt y

theorem bytesLt_shiftRows (s : List Nat) (h : BytesLt s) : BytesLt (shiftRows s) := by
  intro x hx
  obtain ⟨i, -, rfl⟩ := List.mem_map.mp hx
  exact nthByte_lt s h i

theorem bytesLt_mixColumn (a0 a1 a2 a3 : Nat) (h0 : a0 < 256) (h1 : a1 < 256)
    (h2 : a2 < 256) (h3 : a3 < 256) : BytesLt (mixColumn a0 a1 a2 a3) := by
  intro x hx
  simp only [mixColumn, List.mem_cons, List.not_mem_nil, or_false] at hx
  rcases hx with rfl | rfl | rfl | rfl
  · exact xor_lt_256 (xor_lt_256 (xor_lt_256 (xtime_lt a0)
      (xor_lt_256 (xtime_lt a1) h1)) h2) h3
  · exact xor_lt_256 (xor_lt_256 (xor_lt_256 h0 (xtime_lt a1))
      (xor_lt_256 (xtime_lt a2) h2)) h3
  · exact xor_lt_256 (xor_lt_256 (xor_lt_256 h0 h1) (xtime_lt a2))
      (xor_lt_256 (xtime_lt a3) h3)
  · exact xor_lt_256 (xor_lt_256 (xor_lt_256 (xor_lt_256 (xtime_lt a0) h0) h1) h2)
      (xtime_lt a3)

theorem bytesLt_append {l1 l2 : List Nat} (h1 : BytesLt l1) (h2 : BytesLt l2) :
    BytesLt (l1 ++ l2) := by
  intro x hx
  rcases List.mem_append.mp hx with h | h
  · exact h1 x h
  · exact h2 x h

theorem bytesLt_mixColumns (s : List Nat) (h : BytesLt s) : BytesLt (mixColumns s) :=
  bytesLt_append
    (bytesLt_append
      (bytesLt_append
        (bytesLt_mixColumn _ _ _ _ (nthByte_lt s h 0) (nthByte_lt s h 1)
          (nthByte_lt s h 2) (nthByte_lt s h 3))
        (bytesLt_mixColumn _ _ _ _ (nthByte_lt s h 4) (nthByte_lt s h 5)
          (nthByte_lt s h 6) (nthByte_lt s h 7)))
      (bytesLt_mixColumn _ _ _ _ (nthByte_lt s h 8) (nthByte_lt s h 9)
        (nthByte_lt s h 10) (nthByte_lt s h 11)))
    (bytesLt_mixColumn _ _ _ _ (nthByte_lt s h 12) (nthByte_lt s h 13)
      (nthByte_lt s h 14) (nthByte_lt s h 15))

/-- All four bytes of a key-schedule word are bytes. -/
def WLt (w : W4) : Prop := w.a < 256 ∧ w.b < 256 ∧ w.c < 256 ∧ w.d < 256

theorem wLt_subW (w : W4) : WLt (subW w) :=
  ⟨subByte_lt _, subByte_lt _, subByte_lt _, subByte_lt _⟩

theorem wLt_xorW {v w : W4} (h1 : WLt v) (h2 : WLt w) : WLt (xorW v w) :=
  ⟨xor_lt_256 h1.1 h2.1, xor_lt_256 h1.2.1 h2.2.1,
   xor_lt_256 h1.2.2.1 h2.2.2.1, xor_lt_256 h1.2.2.2 h2.2.2.2⟩

theorem wLt_keyW (key : List Nat) (hk : BytesLt key) (i : Nat) : WLt (keyW key i) :=
  ⟨nthByte_lt _ hk _, nthByte_lt _ hk _, nthByte_lt _ hk _, nthByte_lt _ hk _⟩

theorem wLt_getD (ws : List W4) (h : ∀ w ∈ ws, WLt w) (i : Nat) :
    WLt (ws.getD i ⟨0, 0, 0, 0⟩) := by
  induction ws generalizing i with
  | nil =>
    refine ⟨?_, ?_, ?_, ?_⟩ <;> simp [List.getD_nil]
  | cons w ws ih =>
    cases i with
    | zero => simpa [List.getD_cons_zero] using h w (List.mem_cons_self w ws)
    | succ j =>
      simpa [List.getD_cons_succ] using
        ih (fun y hy => h y (List.mem_cons_of_mem w hy)) j

theorem wLt_rotW {w : W4} (h : WLt w) : WLt (rotW w) :=
  ⟨h.2.1, h.2.2.1, h.2.2.2, h.1⟩

theorem expandStep_bound (ws : List W4) (j : Nat) (h : ∀ w ∈ ws, WLt w) :
    ∀ w ∈ expandStep ws j, WLt w := by
  intro w hw
  unfold expandStep at hw
  rcases List.mem_append.mp hw with hw | hw
  · exact h w hw
  · simp only [List.mem_singleton] at hw
    subst hw
    refine wLt_xorW (wLt_getD ws h j) ?_
    split_ifs with hmod
    · refine wLt_xorW (wLt_subW _)
        ⟨nthByte_lt rcon rcon_bound _, ?_, ?_, ?_⟩ <;> show (0 : Nat) < 256 <;> omega
    · exact wLt_getD ws h (j + 3)

theorem foldl_expandStep_bound (l : List Nat) :
    ∀ (ws : List W4), (∀ w ∈ ws, WLt w) →
      ∀ w ∈ l.foldl expandStep ws, WLt w := by
  induction l with
  | nil => intro ws h; simpa using h
  | cons j t ih => intro ws h; exact ih (expandStep ws j) (expandStep_bound ws j h)

theorem expandWords_bound (key : List Nat) (hk : BytesLt key) :
    ∀ w ∈ expandWords key, WLt w := by
  unfold expandWords
  refine foldl_expandStep_bound _ _ ?_
  intro w hw
  simp only [List.mem_cons, List.not_mem_nil, or_false] at hw
  rcases hw with rfl | rfl | rfl | rfl <;> exact wLt_keyW key hk _

theorem bytesLt_wBytes (w : W4) (h : WLt w) : BytesLt (wBytes w) := by
  intro x hx
  simp only [wBytes, List.mem_cons, List.not_mem_nil, or_false] at hx
  rcases hx with rfl | rfl | rfl | rfl
  exacts [h.1, h.2.1, h.2.2.1, h.2.2.2]

theorem roundKey_bound (key : List Nat) (hk : BytesLt key) (r : Nat) :
    BytesLt (roundKey key r) := by
  have hws := expandWords_bound key hk
  exact bytesLt_append
    (bytesLt_append
      (bytesLt_append (bytesLt_wBytes _ (wLt_getD _ hws _))
        (bytesLt_wBytes _ (wLt_getD _ hws _)))
      (bytesLt_wBytes _ (wLt_getD _ hws _)))
    (bytesLt_wBytes _ (wLt_getD _ hws _))

theorem bytesLt_zipWith_xor :
    ∀ (l1 l2 : List Nat), BytesLt l1 → BytesLt l2 →
      BytesLt (List.zipWith (fun a b => a ^^^ b) l1 l2) := by
  intro l1
  induction l1 with
  | nil => intro l2 _ _ x hx; simp at hx
  | cons a l ih =>
    intro l2 h1 h2 x hx
    cases l2 with
    | nil => simp at hx
    | cons b m =>
      rw [List.zipWith_cons_cons] at hx
      rcases List.mem_cons.mp hx with rfl | hx
      · exact xor_lt_256 (h1 a (by simp)) (h2 b (by simp))
      · exact ih m (fun y hy => h1 y (by simp [hy])) (fun y hy => h2 y (by simp [hy])) x hx

/-- The final AES round output is a byte string whenever the key is;
(the state always passes through the S-box first). -/
theorem bytesLt_aesEncryptBlock (key block : List Nat) (hk : BytesLt key) :
    BytesLt (aesEncryptBlock key block) :=
  bytesLt_zipWith_xor _ _
    (bytesLt_shiftRows _ (bytesLt_map_subByte _))
    (roundKey_bound key hk 10)

theorem bytesLt_ctrKeystream (key : List Nat) (n : Nat) (hk : BytesLt key) :
    BytesLt (ctrKeystream key n) := by
  intro x hx
  obtain ⟨i, -, hx⟩ := List.mem_flatMap.mp hx
  exact bytesLt_aesEncryptBlock key _ hk x hx

/-! ### Length lemmas and the CTR round trip -/

theorem length_roundKey (key : List Nat) (r : Nat) : (roundKey key r).length = 16 := by
  simp [roundKey, wBytes]

theorem length_aesEncryptBlock (key block : List Nat) :
    (aesEncryptBlock key block).length = 16 := by
  rw [aesEncryptBlock, aesFinalRound, addRoundKey, List.length_zipWith]
  simp [shiftRows, length_roundKey]

theorem length_ctrKeystream (key : List Nat) (n : Nat) :
    (ctrKeystream key n).length = 16 * n := by
  unfold ctrKeystream
  have H : ∀ l : List Nat,
      (l.flatMap (fun i => aesEncryptBlock key
        (natToBytesBE16 ((bytesToNatBE ivBytes + i) % 2 ^ 128)))).length
      = 16 * l.length := by
    intro l
    induction l with
    | nil => simp
    | cons a t ih =>
      rw [List.flatMap_cons, List.length_append, ih, length_aesEncryptBlock]
      simp
      ring
  rw [H, List.length_range]

theorem length_ctrCrypt (key data : List Nat) :
    (ctrCrypt key data).length = data.length := by
  rw [ctrCrypt, xorBytes, List.length_zipWith, length_ctrKeystream]
  omega

theorem xorBytes_xorBytes (data : List Nat) :
    ∀ (ks : List Nat), data.length ≤ ks.length →
      xorBytes (xorBytes data ks) ks = data := by
  induction data with
  | nil => intro ks _; simp [xorBytes]
  | cons b bs ih =>
    intro ks h
    cases ks with
    | nil => simp at h
    | cons k kk =>
      simp only [xorBytes, List.zipWith_cons_cons]
      rw [Nat.xor_assoc, Nat.xor_self, Nat.xor_zero]
      have := ih kk (by simpa using h)
      simp only [xorBytes] at this
      rw [this]

/-- CTR decryption inverts CTR encryption (same key, fixed IV). -/
theorem ctrCrypt_ctrCrypt (key data : List Nat) :
    ctrCrypt key (ctrCrypt key data) = data := by
  have hlen : (ctrCrypt key data).length = data.length := length_ctrCrypt key data
  rw [ctrCrypt, hlen]
  rw [ctrCrypt]
  exact xorBytes_xorBytes data _ (by rw [length_ctrKeystream]; omega)

theorem bytesLt_ctrCrypt (key data : List Nat) (hk : BytesLt key)
    (hd : BytesLt data) : BytesLt (ctrCrypt key data) :=
  bytesLt_zipWith_xor _ _ hd (bytesLt_ctrKeystream key _ hk)

/-! ### Hex round trip -/

theorem hexVal_hexChar : ∀ n, n < 16 → hexVal (hexChars.getD n '0') = some n := by
  decide

theorem hexDecode_bytesToHex (bs : List Nat) (h : BytesLt bs) :
    hexDecode (bytesToHex bs) = some bs := by
  induction bs with
  | nil => rfl
  | cons b bt ih =>
    have hb := h b (by simp)
    have h1 := hexVal_hexChar (b / 16) (by omega)
    have h2 := hexVal_hexChar (b % 16) (by omega)
    have ih2 := ih (fun y hy => h y (by simp [hy]))
    rw [bytesToHex, List.flatMap_cons]
    show hexDecode (hexChars.getD (b / 16) '0' :: hexChars.getD (b % 16) '0'
      :: bytesToHex bt) = some (b :: bt)
    rw [hexDecode, h1, h2, ih2]
    show some ((16 * (b / 16) + b % 16) :: bt) = some (b :: bt)
    have : 16 * (b / 16) + b % 16 = b := by omega
    rw [this]

/-- Validation of the full `encrypt_data` pipeline on the repository
parameters: `encrypt_data("discover", SR_KEY) = "877860c5412e167c"`. -/
example :
    encrypt_data [100, 105, 115, 99, 111, 118, 101, 114] srKeyBytes
      = ['8', '7', '7', '8', '6', '0', 'c', '5', '4', '1', '2', 'e', '1', '6', '7', 'c'] := by
  decide

/-- C2 (amended): `decrypt(encrypt(s, k), k) = s` for every UTF-8 byte
string `s` and 16-byte key `k`; and `decrypt` fails exactly when its hex
input is malformed **or** the decrypted bytes are not valid UTF-8. -/
theorem c2_crypto_roundtrip :
    (∀ (s k : List Nat), utf8Valid s = true → BytesLt s → k.length = 16 → BytesLt k →
        decrypt_data (encrypt_data s k) k = some s)
    ∧ (∀ (h : List Char) (k : List Nat),
        decrypt_data h k = none ↔
          hexDecode h = none ∨
            ∃ ct, hexDecode h = some ct ∧ utf8Valid (ctrCrypt k ct) = false) := by
  constructor
  · intro s k hs hsb hk16 hkb
    unfold encrypt_data decrypt_data
    rw [hexDecode_bytesToHex _ (bytesLt_ctrCrypt k s hkb hsb)]
    simp [ctrCrypt_ctrCrypt, hs]
  · intro h k
    unfold decrypt_data
    cases hh : hexDecode h with
    | none => simp
    | some ct =>
      by_cases hv : utf8Valid (ctrCrypt k ct) = true
      · simp [hv]
      · simp [hv]

/-- C2 counterexample: the hex string `"63"` is well-formed hex, yet
`decrypt_data("63", SR_KEY)` fails — the decrypted byte is `0x80`, which
is not valid UTF-8, so the Python code raises `UnicodeDecodeError` even
though `bytes.fromhex` succeeded. -/
theorem c2_counterexample :
    hexDecode ['6', '3'] = some [99]
    ∧ decrypt_data ['6', '3'] srKeyBytes = none := by
  exact ⟨by decide, by decide⟩

/-- C2 witness: the round trip at `s = "discover"`, `k = SR_KEY`, and the
failure characterization at the concrete input `"63"`. -/
theorem c2_crypto_roundtrip_witness :
    decrypt_data (encrypt_data [100, 105, 115, 99, 111, 118, 101, 114] srKeyBytes)
        srKeyBytes = some [100, 105, 115, 99, 111, 118, 101, 114]
    ∧ (decrypt_data ['6', '3'] srKeyBytes = none ↔
        hexDecode ['6', '3'] = none ∨
          ∃ ct, hexDecode ['6', '3'] = some ct
            ∧ utf8Valid (ctrCrypt srKeyBytes ct) = false) :=
  ⟨c2_crypto_roundtrip.1 [100, 105, 115, 99, 111, 118, 101, 114] srKeyBytes
      (by decide) (by unfold BytesLt; decide) (by decide) (by unfold BytesLt; decide),
   c2_crypto_roundtrip.2 ['6', '3'] srKeyBytes⟩

/-! ## Error codes and the connect failure path
(`error_codes.py`, `gateway.py` 518–579, `exceptions.py`) -/

def AUTH_REQUIRED : String := "AUTH_REQUIRED"

def AUTH_INVALID_CREDENTIALS : String := "AUTH_INVALID_CREDENTIALS"

def MQTT_PROTOCOL_ERROR : String := "MQTT_PROTOCOL_ERROR"

def MQTT_BROKER_UNAVAILABLE : String := "MQTT_BROKER_UNAVAILABLE"

def DISCOVERY_NO_INTERFACES : String := "DISCOVERY_NO_INTERFACES"

/-- `ErrorCodes.get_mqtt_error_code` (error_codes.py 28–40). -/
def getMqttErrorCode (rc : Int) : String :=
  if rc = 1 then MQTT_PROTOCOL_ERROR
  else if rc = 2 then MQTT_BROKER_UNAVAILABLE
  else if rc = 3 then MQTT_BROKER_UNAVAILABLE
  else if rc = 4 then AUTH_REQUIRED
  else if rc = 5 then AUTH_INVALID_CREDENTIALS
  else "MQTT_ERROR_" ++ toString rc

/-- A raised `DaliGatewayError` (exceptions.py):
`__init__(message, gateway_sn=None, error_code=None)`. -/
structure DaliGatewayErrorVal where
  message : String
  gateway_sn : Option String
  error_code : Option String
deriving DecidableEq

/-- The instruction to the user in the authentication failure message. -/
def buttonRetryInstruction : String := "Please press the gateway button and retry"

inductive ConnectOutcome where
  | success : ConnectOutcome
  | raised : DaliGatewayErrorVal → ConnectOutcome
deriving DecidableEq

/-- Result of `DaliGateway.connect` once the connect callback has fired,
as a function of the broker result code (gateway.py 535–579): `rc = 0`
returns normally; `rc ∈ {4, 5}` raises
`DaliGatewayError(f"Authentication failed for gateway {sn}. Please press
the gateway button and retry", sn)` — the positional arguments are
`message` and `gateway_sn`: **no `error_code` is passed**; any other
`rc` raises `DaliGatewayError(f"Connection failed for gateway {sn} with
code {rc}")` with neither `gateway_sn` nor `error_code`. -/
def connectResult (gwSn : String) (rc : Int) : ConnectOutcome :=
  if rc = 0 then .success
  else if rc = 4 ∨ rc = 5 then
    .raised ⟨"Authentication failed for gateway " ++ gwSn ++ ". " ++
      buttonRetryInstruction, some gwSn, none⟩
  else
    .raised ⟨"Connection failed for gateway " ++ gwSn ++ " with code " ++
      toString rc, none, none⟩

/-- The `error_code` attribute of the exception a connect outcome raised. -/
def ConnectOutcome.errCode : ConnectOutcome → Option String
  | .success => none
  | .raised e => e.error_code

/-- C3 counterexample: connect observing broker result 4 (resp. 5) raises
a `DaliGatewayError` whose `error_code` attribute is `None` — not
`AUTH_REQUIRED` (resp. `AUTH_INVALID_CREDENTIALS`): `connect` never calls
`ErrorCodes.get_mqtt_error_code` and passes no error code. -/
theorem c3_counterexample :
    (connectResult "GW1" 4).errCode = none
    ∧ (connectResult "GW1" 4).errCode ≠ some AUTH_REQUIRED
    ∧ (connectResult "GW1" 5).errCode = none
    ∧ (connectResult "GW1" 5).errCode ≠ some AUTH_INVALID_CREDENTIALS := by
  refine ⟨rfl, ?_, rfl, ?_⟩ <;> decide

/-- C3 (amended): on broker result 4 or 5, `connect` raises a
`DaliGatewayError` carrying the gateway serial and a message that
instructs the user to press the gateway button and retry, but **no**
error code (the codes 4 and 5 are not distinguished);
`ErrorCodes.get_mqtt_error_code` does map 4 to `AUTH_REQUIRED` and 5 to
`AUTH_INVALID_CREDENTIALS`, but `connect` never attaches them. -/
theorem c3_connect_auth_failure (gwSn : String) (rc : Int)
    (h : rc = 4 ∨ rc = 5) :
    connectResult gwSn rc
      = .raised ⟨"Authentication failed for gateway " ++ gwSn ++ ". " ++
          buttonRetryInstruction, some gwSn, none⟩
    ∧ getMqttErrorCode 4 = AUTH_REQUIRED
    ∧ getMqttErrorCode 5 = AUTH_INVALID_CREDENTIALS := by
  refine ⟨?_, rfl, rfl⟩
  rcases h with rfl | rfl <;> rfl

/-- C3 witness: the amended theorem at `gwSn = "GW1"`, `rc = 4`. -/
theorem c3_connect_auth_failure_witness :
    connectResult "GW1" 4
      = .raised ⟨"Authentication failed for gateway GW1. " ++
          buttonRetryInstruction, some "GW1", none⟩
    ∧ getMqttErrorCode 4 = AUTH_REQUIRED
    ∧ getMqttErrorCode 5 = AUTH_INVALID_CREDENTIALS :=
  c3_connect_auth_failure "GW1" 4 (Or.inl rfl)

/-! ## `Group.turn_on` (group.py 60–102) -/

/-- A property dict `{dpid, dataType, value}` (`Group._create_property`). -/
structure DevProp where
  dpid : Nat
  dataType : String
  value : JVal

/-- `Group.turn_on` property-list construction for calls that pass no
`rgbw_color` (with `rgbw_color=None` the RGBW branch of the source
contributes nothing; the claim under verification concerns only the
brightness path).  Python truthiness: `if brightness:` skips both `None`
and `0`; any other integer — including negative ones — is appended
**unmodified** as the dpid-22 value. -/
def turnOnProperties (brightness : Option Int) (color_temp_kelvin : Option Int) :
    List DevProp :=
  [⟨20, "bool", .jbool true⟩]
  ++ (match brightness with
      | some b => if b ≠ 0 then [⟨22, "uint16", .jnum b⟩] else []
      | none => [])
  ++ (match color_temp_kelvin with
      | some ct => if ct ≠ 0 then [⟨23, "uint16", .jnum ct⟩] else []
      | none => [])

/-- The dpid-22 values a turn-on emits. -/
def brightnessValues (props : List DevProp) : List JVal :=
  (props.filter (fun p => p.dpid == 22)).map (fun p => p.value)

/-- C6 counterexample: `turn_on(brightness=1001)` emits the dpid-22 value
1001 (not 1000), and `turn_on(brightness=-1)` emits -1 (not 0) — no
clamping to 0–1000 happens anywhere on this path. -/
theorem c6_counterexample :
    brightnessValues (turnOnProperties (some 1001) none) = [.jnum 1001]
    ∧ (1001 : Int) ≠ 1000
    ∧ brightnessValues (turnOnProperties (some (-1)) none) = [.jnum (-1)]
    ∧ (-1 : Int) ≠ 0 := by
  refine ⟨rfl, by decide, rfl, by decide⟩

/-- C6 (amended): the brightness submitted to `Group.turn_on` is emitted
unmodified in the dpid-22 property — there is no clamping: 1001 is sent
as 1001 and -1 as -1; a brightness of 0 (or None) emits no dpid-22
property at all. -/
theorem c6_brightness_unclamped (b : Int) (hb : b ≠ 0) :
    turnOnProperties (some b) none
      = [⟨20, "bool", .jbool true⟩, ⟨22, "uint16", .jnum b⟩]
    ∧ turnOnProperties (some 0) none = [⟨20, "bool", .jbool true⟩]
    ∧ turnOnProperties none none = [⟨20, "bool", .jbool true⟩] := by
  refine ⟨?_, rfl, rfl⟩
  simp [turnOnProperties, hb]

/-- C6 witness: the amended theorem at brightness 1001. -/
theorem c6_brightness_unclamped_witness :
    turnOnProperties (some 1001) none
      = [⟨20, "bool", .jbool true⟩, ⟨22, "uint16", .jnum 1001⟩]
    ∧ turnOnProperties (some 0) none = [⟨20, "bool", .jbool true⟩]
    ∧ turnOnProperties none none = [⟨20, "bool", .jbool true⟩] :=
  c6_brightness_unclamped 1001 (by decide)

/-! ## Python exception kinds and generic JSON-value operations -/

/-- The exception kinds the modelled code can raise.  Every constructor
is a subclass of `Exception` in CPython (`json.JSONDecodeError` derives
from `ValueError`), which matters for `except` clauses. -/
inductive PyErr where
  | keyError : String → PyErr
  | attributeError : PyErr
  | typeError : PyErr
  | valueError : PyErr
  | jsonDecodeError : PyErr
deriving DecidableEq

mutual

/-- Structural equality test on JSON values, modelling Python `==` on
decoded JSON.  (CPython additionally equates `True == 1`; no verified
property compares a boolean against a number, so the divergence is
unobservable here.) -/
def JVal.beq : JVal → JVal → Bool
  | .null, .null => true
  | .jbool a, .jbool b => a == b
  | .jnum a, .jnum b => a == b
  | .jstr a, .jstr b => a == b
  | .jarr xs, .jarr ys => JVal.beqList xs ys
  | .jobj xs, .jobj ys => JVal.beqObj xs ys
  | _, _ => false

def JVal.beqList : List JVal → List JVal → Bool
  | [], [] => true
  | x :: xs, y :: ys => JVal.beq x y && JVal.beqList xs ys
  | _, _ => false

def JVal.beqObj : List (String × JVal) → List (String × JVal) → Bool
  | [], [] => true
  | (k, x) :: xs, (l, y) :: ys => k == l && JVal.beq x y && JVal.beqObj xs ys
  | _, _ => false

end

/-- `for x in v`: `TypeError` when `v` is not iterable; dicts iterate
over their keys, strings over their one-character substrings. -/
def pyIterList : JVal → Except PyErr (List JVal)
  | .jarr xs => .ok xs
  | .jstr s => .ok (s.toList.map (fun ch => .jstr (String.singleton ch)))
  | .jobj fs => .ok (fs.map (fun kv => .jstr kv.1))
  | _ => .error .typeError

/-- `str(x)` as used when formatting identifiers.  The rendering of
containers is not observable in any verified property. -/
def pyShowJ : JVal → String
  | .null => "None"
  | .jbool b => if b then "True" else "False"
  | .jnum n => toString n
  | .jstr s => s
  | .jarr _ => "[list]"
  | .jobj _ => "[dict]"

/-! ## Discovery engine (`discovery.py` 151–245) -/

/-- Descriptor built by `_process_gateway_data` (a `DaliGatewayType`).
`username`/`passwd` hold the decrypted UTF-8 bytes. -/
structure DaliGatewayType where
  gw_sn : JVal
  gw_ip : JVal
  port : JVal
  is_tls : JVal
  name : JVal
  username : List Nat
  passwd : List Nat
  channel_total : List Int

/-- Python digit-string value (`int(s)` for an all-digit `s`). -/
def digitsToNat (cs : List Char) : Nat :=
  cs.foldl (fun a c => 10 * a + (c.toNat - 48)) 0

/-- One entry of the `channelTotal` comprehension:
`isinstance(ch, (int, str)) and str(ch).isdigit()`, then `int(ch)`.
Nonnegative integers pass (`str(-1)` carries a sign and fails `isdigit`,
`str(True) = "True"` fails it too); strings pass iff nonempty and all
ASCII digits; everything else fails the `isinstance` check. -/
def coerceChannel : JVal → Option Int
  | .jnum n => if 0 ≤ n then some n else none
  | .jstr s => if s ≠ "" ∧ s.toList.all Char.isDigit then
      some (Int.ofNat (digitsToNat s.toList)) else none
  | _ => none

/-- `DaliGatewayDiscovery._process_gateway_data` (discovery.py 223–244):
decrypt `username`/`passwd` with the master key (an exception from
`decrypt_data` propagates), default the name to
`f"Dali Gateway {raw_data.get(\'gwSn\')}"` when the `name` field is falsy,
and coerce the `channelTotal` entries to integers. -/
def processGatewayData (raw : JVal) : Except PyErr DaliGatewayType :=
  match raw with
  | .jobj fs =>
    match (dictGet fs "username").getD (.jstr ""), (dictGet fs "passwd").getD (.jstr "") with
    | .jstr encU, .jstr encP =>
      match decrypt_data encU.toList srKeyBytes with
      | none => .error .valueError
      | some u =>
        match decrypt_data encP.toList srKeyBytes with
        | none => .error .valueError
        | some p =>
          let nameV := (dictGet fs "name").getD .null
          let gatewayName : JVal :=
            if nameV.truthy then nameV
            else .jstr ("Dali Gateway " ++ pyShowJ ((dictGet fs "gwSn").getD .null))
          match pyIterList ((dictGet fs "channelTotal").getD (.jarr [])) with
          | .error e => .error e
          | .ok chs =>
            .ok ⟨(dictGet fs "gwSn").getD .null, (dictGet fs "gwIp").getD .null,
                 (dictGet fs "port").getD .null, (dictGet fs "isMqttTls").getD .null,
                 gatewayName, u, p, chs.filterMap coerceChannel⟩
    | _, _ => .error .typeError
  | _ => .error .attributeError

/-- A datagram as seen by `_receiver_loop`: either text that fails
`json.loads` or a parsed JSON value. -/
inductive Packet where
  | malformed : Packet
  | packet : JVal → Packet

/-- Outcome of one `_run_discovery` call.  `ranFullTimeout` records how
the loops terminated: with no gateway found and no processing error,
both the sender and the receiver loop exit only through their
`elapsed ≥ DISCOVERY_TIMEOUT` checks, i.e. after the full 180 s
(`true`); finding a gateway or an uncaught receiver exception ends the
call before the timeout (`false`).  `raisedToCaller` is the exception
`discover_gateways` raises to its caller — an exception that kills the
receiver task is *not* re-raised (`asyncio.wait` does not propagate it),
so the uncaught-exception paths still return normally. -/
structure DiscoveryOutcome where
  gateways : List DaliGatewayType
  raisedToCaller : Option PyErr
  ranFullTimeout : Bool

/-- The receiver loop body (discovery.py 205–221), folded over the
datagrams that arrive before the timeout: malformed JSON is caught and
skipped; a falsy `data` field is skipped; a seen serial is skipped; the
first successfully processed descriptor sets `first_gateway_found` and
breaks; an exception from `_process_gateway_data` (or from `.get` on a
non-dict) is outside the caught tuple and kills the task. -/
def receiverGo : List Packet → List DaliGatewayType → List JVal → DiscoveryOutcome
  | [], acc, _ => ⟨acc, none, true⟩
  | .malformed :: rest, acc, seen => receiverGo rest acc seen
  | .packet v :: rest, acc, seen =>
    match v with
    | .jobj fs =>
      match (dictGet fs "data").getD .null with
      | .jobj rfs =>
        let sn := (dictGet rfs "gwSn").getD .null
        if (JVal.jobj rfs).truthy = false then receiverGo rest acc seen
        else if seen.any (fun s => JVal.beq s sn) then receiverGo rest acc seen
        else
          match processGatewayData (.jobj rfs) with
          | .ok gw => ⟨acc ++ [gw], none, false⟩
          | .error _ => ⟨acc, none, false⟩
      | w => if w.truthy then ⟨acc, none, false⟩ else receiverGo rest acc seen
    | _ => ⟨acc, none, false⟩

/-- `discover_gateways`/`_run_discovery` (discovery.py 162–192) as a
function of the enumerated interfaces and the arriving datagrams.  The
interface list is deliberately present and unused on the result path:
the source consults it only to join multicast groups and to send; **no
branch inspects whether it is empty**, and `DISCOVERY_NO_INTERFACES` is
never referenced by the discovery code. -/
def runDiscovery (interfaces : List String) (packets : List Packet) :
    DiscoveryOutcome :=
  receiverGo packets [] []

/-! ### Discovery theorems -/

theorem srKeyBytes_bound : BytesLt srKeyBytes := by
  unfold BytesLt; decide

/-- Shared round-trip lemma: decrypting an `encrypt_data` output with
the same key recovers the plaintext bytes. -/
theorem decrypt_encrypt (s k : List Nat) (hs : utf8Valid s = true)
    (hsb : BytesLt s) (hkb : BytesLt k) :
    decrypt_data (encrypt_data s k) k = some s := by
  unfold encrypt_data decrypt_data
  rw [hexDecode_bytesToHex _ (bytesLt_ctrCrypt k s hkb hsb)]
  simp [ctrCrypt_ctrCrypt, hs]

/-- The receiver loop never raises to the caller of
`discover_gateways`: caught exceptions continue the loop, uncaught ones
kill the task, whose exception `asyncio.wait` never re-raises. -/
theorem receiverGo_no_raise :
    ∀ (packets : List Packet) (acc : List DaliGatewayType) (seen : List JVal),
      (receiverGo packets acc seen).raisedToCaller = none := by
  intro packets
  induction packets with
  | nil => intro acc seen; rfl
  | cons pk rest ih =>
    intro acc seen
    cases pk with
    | malformed => exact ih acc seen
    | packet v =>
      cases v with
      | jobj fs =>
        rw [receiverGo]
        cases hd : (dictGet fs "data").getD .null with
        | jobj rfs =>
          by_cases h1 : (JVal.jobj rfs).truthy = false
          · simp only [h1, if_true]
            exact ih acc seen
          · simp only [h1, if_false]
            by_cases h2 : seen.any (fun s => JVal.beq s ((dictGet rfs "gwSn").getD .null))
            · simp only [h2, if_true]
              exact ih acc seen
            · simp only [h2, if_false]
              cases processGatewayData (.jobj rfs) with
              | ok gw => rfl
              | error e => rfl
        | null => simp [JVal.truthy]; exact ih acc seen
        | jbool b => cases b with
          | true => simp [JVal.truthy]
          | false => simp [JVal.truthy]; exact ih acc seen
        | jnum n => by_cases hn : (JVal.jnum n).truthy <;> simp [hn] <;> try exact ih acc seen
        | jstr s => by_cases hs : (JVal.jstr s).truthy <;> simp [hs] <;> try exact ih acc seen
        | jarr xs => by_cases hx : (JVal.jarr xs).truthy <;> simp [hx] <;> try exact ih acc seen
      | null => rfl
      | jbool b => rfl
      | jnum n => rfl
      | jstr s => rfl
      | jarr xs => rfl

/-- C7 counterexample: with zero enumerated interfaces (and consequently
no inbound datagrams), `discover_gateways` returns the empty list only
after running the sender/receiver loops to the full 180 s timeout, and
raises nothing — there is no immediate return and no
`DISCOVERY_NO_INTERFACES` error anywhere on this path. -/
theorem c7_counterexample :
    (runDiscovery [] []).gateways = []
    ∧ (runDiscovery [] []).raisedToCaller = none
    ∧ (runDiscovery [] []).ranFullTimeout = true
    ∧ DISCOVERY_NO_INTERFACES = "DISCOVERY_NO_INTERFACES" :=
  ⟨rfl, rfl, rfl, rfl⟩

/-- C7 (amended): an empty interface list is not special-cased — with no
inbound datagrams, discovery (with or without interfaces) runs until the
180 s timeout and then returns an empty list with no error; and for any
datagram sequence, `discover_gateways` never raises to its caller. -/
theorem c7_discovery_no_interfaces (interfaces : List String) :
    runDiscovery interfaces [] = ⟨[], none, true⟩
    ∧ ∀ (packets : List Packet),
        (runDiscovery interfaces packets).raisedToCaller = none :=
  ⟨rfl, fun packets => receiverGo_no_raise packets [] []⟩

/-- C7 witness: the amended theorem at a concrete interface list, with
the no-raise conjunct evaluated on a concrete packet. -/
theorem c7_discovery_no_interfaces_witness :
    runDiscovery ["192.168.0.2"] [] = ⟨[], none, true⟩
    ∧ (runDiscovery ["192.168.0.2"] [.malformed]).raisedToCaller = none :=
  ⟨(c7_discovery_no_interfaces ["192.168.0.2"]).1,
   (c7_discovery_no_interfaces ["192.168.0.2"]).2 [.malformed]⟩

/-- C8: for a discovery `data` object carrying `gwSn`, encrypted
credentials, no `name`, and `channelTotal = ["0", 1]`, the constructed
descriptor decrypts `username`/`passwd` with the master key, defaults
the name to `"Dali Gateway <gwSn>"`, and coerces the channel entries to
the integers `[0, 1]`. -/
theorem c8_gateway_descriptor (fs : List (String × JVal)) (u p : List Nat)
    (sn : String)
    (hu : dictGet fs "username" = some (.jstr ⟨encrypt_data u srKeyBytes⟩))
    (hp : dictGet fs "passwd" = some (.jstr ⟨encrypt_data p srKeyBytes⟩))
    (huv : utf8Valid u = true) (hub : BytesLt u)
    (hpv : utf8Valid p = true) (hpb : BytesLt p)
    (hsn : dictGet fs "gwSn" = some (.jstr sn))
    (hname : dictGet fs "name" = none)
    (hch : dictGet fs "channelTotal" = some (.jarr [.jstr "0", .jnum 1])) :
    processGatewayData (.jobj fs)
      = .ok ⟨.jstr sn, (dictGet fs "gwIp").getD .null,
             (dictGet fs "port").getD .null, (dictGet fs "isMqttTls").getD .null,
             .jstr ("Dali Gateway " ++ sn), u, p, [0, 1]⟩ := by
  simp only [processGatewayData]
  rw [hu, hp, hsn, hname, hch]
  simp only [Option.getD_some, Option.getD_none]
  have e1 : (String.mk (encrypt_data u srKeyBytes)).toList = encrypt_data u srKeyBytes := rfl
  have e2 : (String.mk (encrypt_data p srKeyBytes)).toList = encrypt_data p srKeyBytes := rfl
  rw [e1, e2, decrypt_encrypt u srKeyBytes huv hub srKeyBytes_bound,
      decrypt_encrypt p srKeyBytes hpv hpb srKeyBytes_bound]
  rfl

/-- C8 witness: the spec scenario — `gwSn = "GW-1"`, encrypted
`"admin"`/`"pw"`, no name, `channelTotal = ["0", 1]` — yields the
descriptor with `username = "admin"`, `passwd = "pw"`,
`name = "Dali Gateway GW-1"`, `channel_total = [0, 1]`. -/
theorem c8_gateway_descriptor_witness :
    processGatewayData (.jobj
      [("gwSn", .jstr "GW-1"), ("gwIp", .jstr "10.0.0.2"),
       ("port", .jnum 1883), ("isMqttTls", .jbool false),
       ("username", .jstr ⟨encrypt_data [97, 100, 109, 105, 110] srKeyBytes⟩),
       ("passwd", .jstr ⟨encrypt_data [112, 119] srKeyBytes⟩),
       ("channelTotal", .jarr [.jstr "0", .jnum 1])])
      = .ok ⟨.jstr "GW-1", .jstr "10.0.0.2", .jnum 1883, .jbool false,
             .jstr "Dali Gateway GW-1", [97, 100, 109, 105, 110],
             [112, 119], [0, 1]⟩ :=
  c8_gateway_descriptor _ [97, 100, 109, 105, 110] [112, 119] "GW-1"
    rfl rfl (by decide) (by unfold BytesLt; decide)
    (by decide) (by unfold BytesLt; decide) rfl rfl rfl

/-! ## Session inbound dispatch (`gateway.py` 233–492)

`types.py` and `helper.py` are not under `src/`: the record shapes below
are reconstructed from their uses in `gateway.py`, and the identifier
helpers are modelled from the spec (see the individual doc comments).
The per-event callback slots (`_on_online_status`, …) are modelled as
emitted `Event`s: one event stands for one callback invocation. -/

structure SceneType where
  channel : JVal
  id : JVal
  name : JVal
  area_id : JVal
  unique_id : String

structure GroupType where
  id : JVal
  name : JVal
  channel : JVal
  area_id : JVal
  unique_id : String

structure DeviceType where
  dev_type : JVal
  channel : JVal
  address : JVal
  status : JVal
  name : JVal
  dev_sn : JVal
  area_name : JVal
  area_id : JVal
  prop : List JVal
  id : JVal
  unique_id : Option String

structure VersionType where
  software : JVal
  firmware : JVal

/-- Modelled from the spec: `helper.gen_device_unique_id` is not under
`src/`; spec §3 defines the stable per-device identifier as the string
`dev_type-channel-address-gw_sn`.  The model returns `none` (falsy) when
a component is missing, matching the `if not dev_id` guards in
`gateway.py`. -/
def gen_device_unique_id (devType channel address : Option JVal)
    (gwSn : String) : Option String :=
  match devType, channel, address with
  | some dt, some ch, some ad =>
      some (pyShowJ dt ++ "-" ++ pyShowJ ch ++ "-" ++ pyShowJ ad ++ "-" ++ gwSn)
  | _, _, _ => none

/-- Modelled from the spec: `helper.gen_scene_unique_id` is not under
`src/`; spec §3 gives the stable scene identifier `channel-id-gw_sn`. -/
def gen_scene_unique_id (sceneId channel : JVal) (gwSn : String) : String :=
  pyShowJ channel ++ "-" ++ pyShowJ sceneId ++ "-" ++ gwSn

/-- Modelled from the spec: `helper.gen_group_unique_id` is not under
`src/`; spec §3 gives the stable group identifier `channel-id-gw_sn`. -/
def gen_group_unique_id (groupId channel : JVal) (gwSn : String) : String :=
  pyShowJ channel ++ "-" ++ pyShowJ groupId ++ "-" ++ gwSn

/-- Modelled from the spec: `helper.gen_device_name` is not under
`src/`; the spec does not pin its format and no verified property
depends on it beyond totality, so the model renders the addressing
triple. -/
def gen_device_name (devType channel address : JVal) : String :=
  "Device " ++ pyShowJ devType ++ "-" ++ pyShowJ channel ++ "-" ++ pyShowJ address

/-- Python `==` on `SceneType` records (TypedDict instances compare
field-wise). -/
def sceneBeq (a b : SceneType) : Bool :=
  JVal.beq a.channel b.channel && JVal.beq a.id b.id && JVal.beq a.name b.name
    && JVal.beq a.area_id b.area_id && a.unique_id == b.unique_id

def groupBeq (a b : GroupType) : Bool :=
  JVal.beq a.id b.id && JVal.beq a.name b.name && JVal.beq a.channel b.channel
    && JVal.beq a.area_id b.area_id && a.unique_id == b.unique_id

def devBeq (a b : DeviceType) : Bool :=
  JVal.beq a.dev_type b.dev_type && JVal.beq a.channel b.channel
    && JVal.beq a.address b.address && JVal.beq a.status b.status
    && JVal.beq a.name b.name && JVal.beq a.dev_sn b.dev_sn
    && JVal.beq a.area_name b.area_name && JVal.beq a.area_id b.area_id
    && JVal.beqList a.prop b.prop && JVal.beq a.id b.id
    && a.unique_id == b.unique_id

/-- The session state the handlers mutate (`DaliGateway.__init__`,
gateway.py 62–70). -/
structure SessionState where
  scenes_result : List SceneType
  groups_result : List GroupType
  devices_result : List DeviceType
  version_result : Option VersionType
  scenes_received : Bool
  groups_received : Bool
  devices_received : Bool
  version_received : Bool

/-- The fresh session state (`__init__`). -/
def initSession : SessionState := ⟨[], [], [], none, false, false, false, false⟩

/-- One callback invocation. -/
inductive Event where
  | onlineStatus : Option String → JVal → Event
  | deviceStatus : String → JVal → Event
  | energyReport : String → JVal → Event
  | sensorOnOff : Option String → JVal → Event

/-- Result of running one handler body: the (possibly partially mutated)
state, the callbacks invoked so far, and the exception the body raised,
if any. -/
structure HandlerResult where
  state : SessionState
  events : List Event
  raised : Option PyErr

/-- `_process_device_status` (gateway.py 311–333), for `devStatus` and
`readDevRes`: falsy `data` is logged and dropped; a falsy device id is
logged and dropped; otherwise one device-status callback fires. -/
def processDeviceStatus (gwSn : String) (st : SessionState) (payload : JVal) :
    HandlerResult :=
  match payload with
  | .jobj fs =>
    let data := (dictGet fs "data").getD .null
    if data.truthy = false then ⟨st, [], none⟩
    else
      match data with
      | .jobj dfs =>
        match gen_device_unique_id (dictGet dfs "devType") (dictGet dfs "channel")
            (dictGet dfs "address") gwSn with
        | none => ⟨st, [], none⟩
        | some devId =>
            ⟨st, [.deviceStatus devId ((dictGet dfs "property").getD (.jarr []))], none⟩
      | _ => ⟨st, [], some .attributeError⟩
  | _ => ⟨st, [], some .attributeError⟩

/-- The `for data in data_list` body of `_process_online_status`: each
entry fires one connectivity callback; `.get` on a non-dict entry raises
`AttributeError`, keeping the callbacks already fired. -/
def onlineLoop (gwSn : String) : List JVal → List Event → List Event × Option PyErr
  | [], acc => (acc, none)
  | .jobj dfs :: rest, acc =>
      onlineLoop gwSn rest (acc ++ [.onlineStatus
        (gen_device_unique_id (dictGet dfs "devType") (dictGet dfs "channel")
          (dictGet dfs "address") gwSn)
        ((dictGet dfs "status").getD (.jbool false))])
  | _ :: _, acc => (acc, some .attributeError)

/-- `_process_online_status` (gateway.py 289–309). -/
def processOnlineStatus (gwSn : String) (st : SessionState) (payload : JVal) :
    HandlerResult :=
  match payload with
  | .jobj fs =>
    let dataList := (dictGet fs "data").getD .null
    if dataList.truthy = false then ⟨st, [], none⟩
    else
      match pyIterList dataList with
      | .error e => ⟨st, [], some e⟩
      | .ok items =>
        match onlineLoop gwSn items [] with
        | (evs, err) => ⟨st, evs, err⟩
  | _ => ⟨st, [], some .attributeError⟩

/-- `_process_write_response` (gateway.py 335–343): log only. -/
def processWriteResponse (gwSn : String) (st : SessionState) (payload : JVal) :
    HandlerResult :=
  match payload with
  | .jobj _ => ⟨st, [], none⟩
  | _ => ⟨st, [], some .attributeError⟩

/-- `_process_set_sensor_on_off_response` (gateway.py 475–479): log only. -/
def processSetSensorOnOffResponse (gwSn : String) (st : SessionState)
    (payload : JVal) : HandlerResult :=
  match payload with
  | .jobj _ => ⟨st, [], none⟩
  | _ => ⟨st, [], some .attributeError⟩

/-- Exponent digits `sign? digit+` at the end of a float literal. -/
def expDigitsOk (cs : List Char) : Bool :=
  match cs with
  | '+' :: r => !r.isEmpty && r.all Char.isDigit
  | '-' :: r => !r.isEmpty && r.all Char.isDigit
  | r => !r.isEmpty && r.all Char.isDigit

/-- Optional `e`/`E` exponent at the end of a float literal. -/
def expPartOk (cs : List Char) : Bool :=
  match cs with
  | [] => true
  | 'e' :: r => expDigitsOk r
  | 'E' :: r => expDigitsOk r
  | _ => false

/-- The body of a float literal after the optional sign. -/
def floatBodyOk (cs : List Char) : Bool :=
  let (ds, r1) := cs.span Char.isDigit
  if ds.isEmpty then
    match r1 with
    | '.' :: r2 =>
      let (fs, r3) := r2.span Char.isDigit
      !fs.isEmpty && expPartOk r3
    | _ =>
      let lowered := r1.map Char.toLower
      lowered == ['i', 'n', 'f'] || lowered == ['i', 'n', 'f', 'i', 'n', 'i', 't', 'y']
        || lowered == ['n', 'a', 'n']
  else
    match r1 with
    | [] => true
    | '.' :: r2 =>
      let (_, r3) := r2.span Char.isDigit
      expPartOk r3
    | _ => expPartOk r1

/-- Whether `float(s)` succeeds on a string: optional surrounding ASCII
whitespace, optional sign, then a float body or `inf`/`infinity`/`nan`.
(CPython additionally allows underscores between digits; that corner is
not observable in any verified property.) -/
def floatStrParseable (cs0 : List Char) : Bool :=
  let ws : Char → Bool := fun ch =>
    ch == ' ' || ch == '\t' || ch == '\n' || ch == '\r'
  let cs := ((cs0.dropWhile ws).reverse.dropWhile ws).reverse
  match cs with
  | [] => false
  | '+' :: r => floatBodyOk r
  | '-' :: r => floatBodyOk r
  | r => floatBodyOk r

/-- Whether `float(x)` succeeds: numbers and booleans convert, strings
per the grammar; `None` and containers raise `TypeError` — in the
energy handler both failure kinds are caught by the inner
`except (ValueError, TypeError)`. -/
def floatParseable : JVal → Bool
  | .jnum _ => true
  | .jbool _ => true
  | .jstr s => floatStrParseable s.toList
  | _ => false

/-- The `for prop in property_list` body of `_process_energy_report`:
dpid-30 entries whose value parses as float fire one energy callback;
parse failures are caught and skipped by the inner `try`. -/
def energyLoop (devId : String) : List JVal → List Event → List Event × Option PyErr
  | [], acc => (acc, none)
  | .jobj pfs :: rest, acc =>
      if JVal.beq ((dictGet pfs "dpid").getD .null) (.jnum 30) then
        let v := (dictGet pfs "value").getD (.jstr "0")
        if floatParseable v then energyLoop devId rest (acc ++ [.energyReport devId v])
        else energyLoop devId rest acc
      else energyLoop devId rest acc
  | _ :: _, acc => (acc, some .attributeError)

/-- `_process_energy_report` (gateway.py 345–376). -/
def processEnergyReport (gwSn : String) (st : SessionState) (payload : JVal) :
    HandlerResult :=
  match payload with
  | .jobj fs =>
    let data := (dictGet fs "data").getD .null
    if data.truthy = false then ⟨st, [], none⟩
    else
      match data with
      | .jobj dfs =>
        match gen_device_unique_id (dictGet dfs "devType") (dictGet dfs "channel")
            (dictGet dfs "address") gwSn with
        | none => ⟨st, [], none⟩
        | some devId =>
          match pyIterList ((dictGet dfs "property").getD (.jarr [])) with
          | .error e => ⟨st, [], some e⟩
          | .ok props =>
            match energyLoop devId props [] with
            | (evs, err) => ⟨st, evs, err⟩
      | _ => ⟨st, [], some .attributeError⟩
  | _ => ⟨st, [], some .attributeError⟩

/-- `_process_get_version_response` (gateway.py 378–383). -/
def processGetVersionResponse (gwSn : String) (st : SessionState)
    (payload : JVal) : HandlerResult :=
  match payload with
  | .jobj fs =>
    match (dictGet fs "data").getD (.jobj []) with
    | .jobj dfs =>
        ⟨{ st with
            version_result := some ⟨(dictGet dfs "swVersion").getD (.jstr ""),
              (dictGet dfs "fwVersion").getD (.jstr "")⟩,
            version_received := true }, [], none⟩
    | _ => ⟨st, [], some .attributeError⟩
  | _ => ⟨st, [], some .attributeError⟩

/-- Python `x == n` against an integer literal (booleans equal their
numeric value: `True == 1`, `False == 0`). -/
def pyEqInt : JVal → Int → Bool
  | .jnum n, k => n == k
  | .jbool b, k => (if b then (1 : Int) else 0) == k
  | _, _ => false

/-- The `DeviceType` record `_process_search_device_response` constructs
(gateway.py 388–414). -/
def mkDevice (gwSn : String) (dfs : List (String × JVal)) : DeviceType :=
  let devType := (dictGet dfs "devType").getD (.jstr "")
  let channel := (dictGet dfs "channel").getD (.jnum 0)
  let address := (dictGet dfs "address").getD (.jnum 0)
  let genId := gen_device_unique_id (some devType) (some channel) (some address) gwSn
  let devIdRaw := (dictGet dfs "devId").getD .null
  let nameRaw := (dictGet dfs "name").getD .null
  ⟨devType, channel, address,
   (dictGet dfs "status").getD (.jstr ""),
   (if nameRaw.truthy then nameRaw
    else .jstr (gen_device_name devType channel address)),
   (dictGet dfs "devSn").getD (.jstr ""),
   (dictGet dfs "areaName").getD (.jstr ""),
   (dictGet dfs "areaId").getD (.jstr ""),
   [],
   (if devIdRaw.truthy then devIdRaw else .jstr (genId.getD "")),
   genId⟩

/-- The `for raw_device_data in payload_json["data"]` body: construct a
device, append it unless an equal one is present. -/
def searchLoop (gwSn : String) :
    List JVal → List DeviceType → List DeviceType × Option PyErr
  | [], acc => (acc, none)
  | .jobj dfs :: rest, acc =>
      let device := mkDevice gwSn dfs
      if acc.any (fun d => devBeq d device) then searchLoop gwSn rest acc
      else searchLoop gwSn rest (acc ++ [device])
  | _ :: _, acc => (acc, some .attributeError)

/-- `_process_search_device_response` (gateway.py 385–421):
`payload_json["data"]` and `payload_json["searchStatus"]` raise
`KeyError` when absent (the latter *after* the devices were appended);
`searchStatus ∈ {0, 1}` sets the completion signal. -/
def processSearchDeviceResponse (gwSn : String) (st : SessionState)
    (payload : JVal) : HandlerResult :=
  match payload with
  | .jobj fs =>
    match dictGet fs "data" with
    | none => ⟨st, [], some (.keyError "data")⟩
    | some dv =>
      match pyIterList dv with
      | .error e => ⟨st, [], some e⟩
      | .ok items =>
        match searchLoop gwSn items st.devices_result with
        | (devs, some e) => ⟨{ st with devices_result := devs }, [], some e⟩
        | (devs, none) =>
          match dictGet fs "searchStatus" with
          | none => ⟨{ st with devices_result := devs }, [],
              some (.keyError "searchStatus")⟩
          | some ss =>
            if pyEqInt ss 1 || pyEqInt ss 0 then
              ⟨{ st with devices_result := devs, devices_received := true }, [], none⟩
            else ⟨{ st with devices_result := devs }, [], none⟩
  | _ => ⟨st, [], some .attributeError⟩

/-- The `for scene_data in channel_scenes["data"]` body of
`_process_get_scene_response`: build each scene, appending it unless an
equal one is present (the list was cleared before this loop). -/
def buildChannelScenes (gwSn : String) (channel : JVal) :
    List JVal → List SceneType → List SceneType × Option PyErr
  | [], acc => (acc, none)
  | .jobj sfs :: rest, acc =>
      let scene : SceneType :=
        ⟨channel, (dictGet sfs "sceneId").getD (.jnum 0),
         (dictGet sfs "name").getD (.jstr ""),
         (dictGet sfs "areaId").getD (.jstr ""),
         gen_scene_unique_id ((dictGet sfs "sceneId").getD (.jnum 0)) channel gwSn⟩
      if acc.any (fun s => sceneBeq s scene) then
        buildChannelScenes gwSn channel rest acc
      else buildChannelScenes gwSn channel rest (acc ++ [scene])
  | _ :: _, acc => (acc, some .attributeError)

/-- The `for channel_scenes in payload_json["scene"]` loop
(gateway.py 424–445): channels without a `data` key are skipped;
a channel with data **clears the accumulated result** before rebuilding
it, so the entries of an earlier channel never survive a later one. -/
def sceneChannelsLoop (gwSn : String) :
    List JVal → List SceneType → List SceneType × Option PyErr
  | [], acc => (acc, none)
  | c :: rest, acc =>
    match c with
    | .jobj cfs =>
      match dictGet cfs "data" with
      | none => sceneChannelsLoop gwSn rest acc
      | some dv =>
        match pyIterList dv with
        | .error e => ([], some e)
        | .ok ds =>
          match buildChannelScenes gwSn ((dictGet cfs "channel").getD (.jnum 0)) ds [] with
          | (scenes, none) => sceneChannelsLoop gwSn rest scenes
          | (scenes, some e) => (scenes, some e)
    | _ => (acc, some .attributeError)

/-- `_process_get_scene_response` (gateway.py 423–447). -/
def processGetSceneResponse (gwSn : String) (st : SessionState)
    (payload : JVal) : HandlerResult :=
  match payload with
  | .jobj fs =>
    match dictGet fs "scene" with
    | none => ⟨st, [], some (.keyError "scene")⟩
    | some sv =>
      match pyIterList sv with
      | .error e => ⟨st, [], some e⟩
      | .ok channels =>
        match sceneChannelsLoop gwSn channels st.scenes_result with
        | (scenes, none) =>
            ⟨{ st with scenes_result := scenes, scenes_received := true }, [], none⟩
        | (scenes, some e) => ⟨{ st with scenes_result := scenes }, [], some e⟩
  | _ => ⟨st, [], some .attributeError⟩

/-- The `for group_data in channel_groups["data"]` body of
`_process_get_group_response`. -/
def buildChannelGroups (gwSn : String) (channel : JVal) :
    List JVal → List GroupType → List GroupType × Option PyErr
  | [], acc => (acc, none)
  | .jobj gfs :: rest, acc =>
      let group : GroupType :=
        ⟨(dictGet gfs "groupId").getD (.jnum 0),
         (dictGet gfs "name").getD (.jstr ""), channel,
         (dictGet gfs "areaId").getD (.jstr ""),
         gen_group_unique_id ((dictGet gfs "groupId").getD (.jnum 0)) channel gwSn⟩
      if acc.any (fun g => groupBeq g group) then
        buildChannelGroups gwSn channel rest acc
      else buildChannelGroups gwSn channel rest (acc ++ [group])
  | _ :: _, acc => (acc, some .attributeError)

/-- The `for channel_groups in payload_json["group"]` loop
(gateway.py 450–471); mirrors `sceneChannelsLoop`. -/
def groupChannelsLoop (gwSn : String) :
    List JVal → List GroupType → List GroupType × Option PyErr
  | [], acc => (acc, none)
  | c :: rest, acc =>
    match c with
    | .jobj cfs =>
      match dictGet cfs "data" with
      | none => groupChannelsLoop gwSn rest acc
      | some dv =>
        match pyIterList dv with
        | .error e => ([], some e)
        | .ok ds =>
          match buildChannelGroups gwSn ((dictGet cfs "channel").getD (.jnum 0)) ds [] with
          | (groups, none) => groupChannelsLoop gwSn rest groups
          | (groups, some e) => (groups, some e)
    | _ => (acc, some .attributeError)

/-- `_process_get_group_response` (gateway.py 449–473). -/
def processGetGroupResponse (gwSn : String) (st : SessionState)
    (payload : JVal) : HandlerResult :=
  match payload with
  | .jobj fs =>
    match dictGet fs "group" with
    | none => ⟨st, [], some (.keyError "group")⟩
    | some gv =>
      match pyIterList gv with
      | .error e => ⟨st, [], some e⟩
      | .ok channels =>
        match groupChannelsLoop gwSn channels st.groups_result with
        | (groups, none) =>
            ⟨{ st with groups_result := groups, groups_received := true }, [], none⟩
        | (groups, some e) => ⟨{ st with groups_result := groups }, [], some e⟩
  | _ => ⟨st, [], some .attributeError⟩

/-- `_process_get_sensor_on_off_response` (gateway.py 481–492): fields
are read with defaults directly off the payload; one sensor callback
fires. -/
def processGetSensorOnOffResponse (gwSn : String) (st : SessionState)
    (payload : JVal) : HandlerResult :=
  match payload with
  | .jobj fs =>
      ⟨st, [.sensorOnOff
        (gen_device_unique_id (some ((dictGet fs "devType").getD (.jstr "")))
          (some ((dictGet fs "channel").getD (.jnum 0)))
          (some ((dictGet fs "address").getD (.jnum 0))) gwSn)
        ((dictGet fs "value").getD (.jbool false))], none⟩
  | _ => ⟨st, [], some .attributeError⟩

/-- The `command_handlers` dispatch table (gateway.py 253–267);
`dict.get(cmd)` misses on any key not in the table, including non-string
keys. -/
def handlerFor (cmd : JVal) :
    Option (String → SessionState → JVal → HandlerResult) :=
  match cmd with
  | .jstr s =>
    if s = "devStatus" ∨ s = "readDevRes" then some processDeviceStatus
    else if s = "writeDevRes" ∨ s = "writeGroupRes" ∨ s = "writeSceneRes" then
      some processWriteResponse
    else if s = "onlineStatus" then some processOnlineStatus
    else if s = "reportEnergy" then some processEnergyReport
    else if s = "searchDevRes" then some processSearchDeviceResponse
    else if s = "getSceneRes" then some processGetSceneResponse
    else if s = "getGroupRes" then some processGetGroupResponse
    else if s = "getVersionRes" then some processGetVersionResponse
    else if s = "setSensorOnOffRes" then some processSetSensorOnOffResponse
    else if s = "getSensorOnOffRes" then some processGetSensorOnOffResponse
    else none
  | _ => none

/-- An inbound broker message: either bytes whose `json.loads` fails, or
the decoded JSON value. -/
inductive Inbound where
  | malformed : Inbound
  | payload : JVal → Inbound

/-- What `_on_message` logged about a message. -/
inductive LogKind where
  | processed : LogKind
  | decodeError : LogKind
  | missingCmd : LogKind
  | unhandledCmd : LogKind
  | processingError : LogKind
deriving DecidableEq

/-- Result of one `_on_message` call: the state, the callbacks fired,
the demultiplexer-level log entry, and the exception propagated to the
paho caller — `none` when every raised exception was caught. -/
structure OnMessageResult where
  state : SessionState
  events : List Event
  log : LogKind
  propagated : Option PyErr

/-- Whether `except json.JSONDecodeError` catches the error. -/
def caughtByDecodeClause : PyErr → Bool
  | .jsonDecodeError => true
  | _ => false

/-- Whether the broad `except Exception` clause catches the error: every
error kind the handlers can raise is an `Exception` subclass
(`KeyError`, `AttributeError`, `TypeError`, `ValueError`,
`json.JSONDecodeError ⊂ ValueError`). -/
def caughtByBroadClause : PyErr → Bool
  | .keyError _ => true
  | .attributeError => true
  | .typeError => true
  | .valueError => true
  | .jsonDecodeError => true

/-- `DaliGateway._on_message` (gateway.py 233–287): decode, extract
`cmd`, dispatch; the two `except` clauses turn any raised exception into
a log entry. -/
def onMessage (gwSn : String) (st : SessionState) (msg : Inbound) :
    OnMessageResult :=
  match msg with
  | .malformed => ⟨st, [], .decodeError, none⟩
  | .payload v =>
    match v with
    | .jobj fs =>
      let cmd := (dictGet fs "cmd").getD .null
      if cmd.truthy = false then ⟨st, [], .missingCmd, none⟩
      else
        match handlerFor cmd with
        | none => ⟨st, [], .unhandledCmd, none⟩
        | some h =>
          match h gwSn st v with
          | ⟨st1, evs, none⟩ => ⟨st1, evs, .processed, none⟩
          | ⟨st1, evs, some e⟩ =>
            if caughtByDecodeClause e then ⟨st1, evs, .decodeError, none⟩
            else if caughtByBroadClause e then ⟨st1, evs, .processingError, none⟩
            else ⟨st1, evs, .processingError, some e⟩
    | _ =>
      if caughtByBroadClause .attributeError then ⟨st, [], .processingError, none⟩
      else ⟨st, [], .processingError, some .attributeError⟩

theorem caughtByBroadClause_true (e : PyErr) : caughtByBroadClause e = true := by
  cases e <;> rfl

/-- C4: the inbound demultiplexer never raises to its caller; a payload
that is not valid JSON, a message without a (truthy) `cmd`, a message
with an unrecognized `cmd`, and messages missing required fields
(`getSceneRes` without `scene`, `devStatus` without `data`) are each
logged and dropped with the session state unchanged. -/
theorem c4_demux_never_raises :
    (∀ (gwSn : String) (st : SessionState) (msg : Inbound),
        (onMessage gwSn st msg).propagated = none)
    ∧ (∀ (gwSn : String) (st : SessionState),
        onMessage gwSn st .malformed = ⟨st, [], .decodeError, none⟩)
    ∧ (∀ (gwSn : String) (st : SessionState) (fs : List (String × JVal)),
        dictGet fs "cmd" = none →
        onMessage gwSn st (.payload (.jobj fs)) = ⟨st, [], .missingCmd, none⟩)
    ∧ (∀ (gwSn : String) (st : SessionState) (fs : List (String × JVal)) (s : String),
        dictGet fs "cmd" = some (.jstr s) → s ≠ "" → handlerFor (.jstr s) = none →
        onMessage gwSn st (.payload (.jobj fs)) = ⟨st, [], .unhandledCmd, none⟩)
    ∧ (∀ (gwSn : String) (st : SessionState) (fs : List (String × JVal)),
        dictGet fs "cmd" = some (.jstr "getSceneRes") → dictGet fs "scene" = none →
        onMessage gwSn st (.payload (.jobj fs)) = ⟨st, [], .processingError, none⟩)
    ∧ (∀ (gwSn : String) (st : SessionState) (fs : List (String × JVal)),
        dictGet fs "cmd" = some (.jstr "devStatus") → dictGet fs "data" = none →
        onMessage gwSn st (.payload (.jobj fs)) = ⟨st, [], .processed, none⟩) := by
  refine ⟨?_, fun gwSn st => rfl, ?_, ?_, ?_, ?_⟩
  · intro gwSn st msg
    cases msg with
    | malformed => rfl
    | payload v =>
      cases v with
      | jobj fs =>
        simp only [onMessage]
        by_cases hc : ((dictGet fs "cmd").getD .null).truthy = false
        · simp [hc]
        · simp only [hc, if_false]
          cases handlerFor ((dictGet fs "cmd").getD .null) with
          | none => rfl
          | some h =>
            rcases hres : h gwSn st (.jobj fs) with ⟨st1, evs, raised⟩
            cases raised with
            | none => simp [hres]
            | some e =>
              simp only [hres]
              by_cases hd : caughtByDecodeClause e = true
              · simp [hd]
              · simp [hd, caughtByBroadClause_true e]
      | null => rfl
      | jbool b => rfl
      | jnum n => rfl
      | jstr s => rfl
      | jarr xs => rfl
  · intro gwSn st fs h
    simp [onMessage, h, JVal.truthy]
  · intro gwSn st fs s hcmd hs hh
    simp [onMessage, hcmd, JVal.truthy, hs, hh]
  · intro gwSn st fs hcmd hscene
    simp [onMessage, hcmd, JVal.truthy, handlerFor,
      processGetSceneResponse, hscene, caughtByDecodeClause, caughtByBroadClause]
  · intro gwSn st fs hcmd hdata
    simp [onMessage, hcmd, JVal.truthy, handlerFor,
      processDeviceStatus, hdata]

/-- C4 witness: each conjunct at a concrete message. -/
theorem c4_demux_never_raises_witness :
    (onMessage "GW1" initSession (.payload (.jobj [("cmd", .jstr "bogus")]))).propagated
        = none
    ∧ onMessage "GW1" initSession .malformed = ⟨initSession, [], .decodeError, none⟩
    ∧ onMessage "GW1" initSession (.payload (.jobj []))
        = ⟨initSession, [], .missingCmd, none⟩
    ∧ onMessage "GW1" initSession (.payload (.jobj [("cmd", .jstr "bogus")]))
        = ⟨initSession, [], .unhandledCmd, none⟩
    ∧ onMessage "GW1" initSession (.payload (.jobj [("cmd", .jstr "getSceneRes")]))
        = ⟨initSession, [], .processingError, none⟩
    ∧ onMessage "GW1" initSession (.payload (.jobj [("cmd", .jstr "devStatus")]))
        = ⟨initSession, [], .processed, none⟩ :=
  ⟨c4_demux_never_raises.1 "GW1" initSession (.payload (.jobj [("cmd", .jstr "bogus")])),
   c4_demux_never_raises.2.1 "GW1" initSession,
   c4_demux_never_raises.2.2.1 "GW1" initSession [] rfl,
   c4_demux_never_raises.2.2.2.1 "GW1" initSession [("cmd", .jstr "bogus")] "bogus"
     rfl (by decide) rfl,
   c4_demux_never_raises.2.2.2.2.1 "GW1" initSession [("cmd", .jstr "getSceneRes")]
     rfl rfl,
   c4_demux_never_raises.2.2.2.2.2 "GW1" initSession [("cmd", .jstr "devStatus")]
     rfl rfl⟩

/-- Error-free prefixes of the scene channel loop compose: the loop over
`cs ++ ds'` continues from the state the loop over `cs` left. -/
theorem sceneChannelsLoop_append (gwSn : String) (cs : List JVal) :
    ∀ (ds' : List JVal) (acc : List SceneType),
      (sceneChannelsLoop gwSn cs acc).2 = none →
      sceneChannelsLoop gwSn (cs ++ ds') acc
        = sceneChannelsLoop gwSn ds' (sceneChannelsLoop gwSn cs acc).1 := by
  induction cs with
  | nil => intro ds' acc h; rfl
  | cons c rest ih =>
    intro ds' acc h
    cases c with
    | jobj cfs =>
      simp only [List.cons_append, sceneChannelsLoop] at h ⊢
      cases hd : dictGet cfs "data" with
      | none =>
        simp only [hd] at h ⊢
        exact ih ds' acc h
      | some dv =>
        simp only [hd] at h ⊢
        cases hv : pyIterList dv with
        | error e => simp [hv] at h
        | ok ds =>
          simp only [hv] at h ⊢
          rcases hb : buildChannelScenes gwSn ((dictGet cfs "channel").getD (.jnum 0)) ds []
            with ⟨scenes, err⟩
          cases err with
          | none =>
            simp only [hb] at h ⊢
            exact ih ds' scenes h
          | some e => simp [hb] at h
    | null => simp [sceneChannelsLoop] at h
    | jbool b => simp [sceneChannelsLoop] at h
    | jnum n => simp [sceneChannelsLoop] at h
    | jstr s => simp [sceneChannelsLoop] at h
    | jarr xs => simp [sceneChannelsLoop] at h

/-- Error-free prefixes of the group channel loop compose. -/
theorem groupChannelsLoop_append (gwSn : String) (cs : List JVal) :
    ∀ (ds' : List JVal) (acc : List GroupType),
      (groupChannelsLoop gwSn cs acc).2 = none →
      groupChannelsLoop gwSn (cs ++ ds') acc
        = groupChannelsLoop gwSn ds' (groupChannelsLoop gwSn cs acc).1 := by
  induction cs with
  | nil => intro ds' acc h; rfl
  | cons c rest ih =>
    intro ds' acc h
    cases c with
    | jobj cfs =>
      simp only [List.cons_append, groupChannelsLoop] at h ⊢
      cases hd : dictGet cfs "data" with
      | none =>
        simp only [hd] at h ⊢
        exact ih ds' acc h
      | some dv =>
        simp only [hd] at h ⊢
        cases hv : pyIterList dv with
        | error e => simp [hv] at h
        | ok ds =>
          simp only [hv] at h ⊢
          rcases hb : buildChannelGroups gwSn ((dictGet cfs "channel").getD (.jnum 0)) ds []
            with ⟨groups, err⟩
          cases err with
          | none =>
            simp only [hb] at h ⊢
            exact ih ds' groups h
          | some e => simp [hb] at h
    | null => simp [groupChannelsLoop] at h
    | jbool b => simp [groupChannelsLoop] at h
    | jnum n => simp [groupChannelsLoop] at h
    | jstr s => simp [groupChannelsLoop] at h
    | jarr xs => simp [groupChannelsLoop] at h

/-- C9: a `getSceneRes` (resp. `getGroupRes`) message replaces the stored
scenes-result (resp. groups-result) with the per-channel entries and
sets the completion signal — and because the result list is cleared
inside the per-channel loop, when several channels carry data only the
last such channel's entries survive: the final result is the build of
the last data-carrying channel alone, independent of the previously
stored result and of all earlier channels.  The concrete conjuncts show
a two-channel message keeping only the second channel's entry. -/
theorem c9_scene_group_last_channel_wins :
    (∀ (gwSn : String) (st : SessionState) (cs : List JVal)
        (cfs : List (String × JVal)) (dv : JVal) (ds : List JVal),
      (sceneChannelsLoop gwSn cs st.scenes_result).2 = none →
      dictGet cfs "data" = some dv →
      pyIterList dv = .ok ds →
      (buildChannelScenes gwSn ((dictGet cfs "channel").getD (.jnum 0)) ds []).2 = none →
      processGetSceneResponse gwSn st (.jobj [("scene", .jarr (cs ++ [.jobj cfs]))])
        = ⟨{ st with
              scenes_result :=
                (buildChannelScenes gwSn ((dictGet cfs "channel").getD (.jnum 0)) ds []).1,
              scenes_received := true }, [], none⟩)
    ∧ (∀ (gwSn : String) (st : SessionState) (cs : List JVal)
        (cfs : List (String × JVal)) (dv : JVal) (ds : List JVal),
      (groupChannelsLoop gwSn cs st.groups_result).2 = none →
      dictGet cfs "data" = some dv →
      pyIterList dv = .ok ds →
      (buildChannelGroups gwSn ((dictGet cfs "channel").getD (.jnum 0)) ds []).2 = none →
      processGetGroupResponse gwSn st (.jobj [("group", .jarr (cs ++ [.jobj cfs]))])
        = ⟨{ st with
              groups_result :=
                (buildChannelGroups gwSn ((dictGet cfs "channel").getD (.jnum 0)) ds []).1,
              groups_received := true }, [], none⟩)
    ∧ processGetSceneResponse "GW1" initSession (.jobj [("scene", .jarr
        [.jobj [("channel", .jnum 0),
                ("data", .jarr [.jobj [("sceneId", .jnum 1), ("name", .jstr "A")]])],
         .jobj [("channel", .jnum 1),
                ("data", .jarr [.jobj [("sceneId", .jnum 2), ("name", .jstr "B")]])]])])
      = ⟨⟨[⟨.jnum 1, .jnum 2, .jstr "B", .jstr "", "1-2-GW1"⟩],
          [], [], none, true, false, false, false⟩, [], none⟩
    ∧ processGetGroupResponse "GW1" initSession (.jobj [("group", .jarr
        [.jobj [("channel", .jnum 0),
                ("data", .jarr [.jobj [("groupId", .jnum 1), ("name", .jstr "A")]])],
         .jobj [("channel", .jnum 1),
                ("data", .jarr [.jobj [("groupId", .jnum 2), ("name", .jstr "B")]])]])])
      = ⟨⟨[], [⟨.jnum 2, .jstr "B", .jnum 1, .jstr "", "1-2-GW1"⟩],
          [], none, false, true, false, false⟩, [], none⟩ := by
  refine ⟨?_, ?_, rfl, rfl⟩
  · intro gwSn st cs cfs dv ds h hd hv hb
    obtain ⟨scenes, hsc⟩ :
        ∃ s, buildChannelScenes gwSn ((dictGet cfs "channel").getD (.jnum 0)) ds []
          = (s, none) := by
      rcases hx : buildChannelScenes gwSn ((dictGet cfs "channel").getD (.jnum 0)) ds []
        with ⟨s2, e2⟩
      rw [hx] at hb
      simp only at hb
      exact ⟨s2, by rw [hb]⟩
    simp only [processGetSceneResponse, dictGet, if_true, pyIterList]
    rw [sceneChannelsLoop_append gwSn cs [.jobj cfs] st.scenes_result h]
    simp only [sceneChannelsLoop, hd, hv, hsc]
  · intro gwSn st cs cfs dv ds h hd hv hb
    obtain ⟨groups, hgr⟩ :
        ∃ g, buildChannelGroups gwSn ((dictGet cfs "channel").getD (.jnum 0)) ds []
          = (g, none) := by
      rcases hx : buildChannelGroups gwSn ((dictGet cfs "channel").getD (.jnum 0)) ds []
        with ⟨s2, e2⟩
      rw [hx] at hb
      simp only at hb
      exact ⟨s2, by rw [hb]⟩
    simp only [processGetGroupResponse, dictGet, if_true, pyIterList]
    rw [groupChannelsLoop_append gwSn cs [.jobj cfs] st.groups_result h]
    simp only [groupChannelsLoop, hd, hv, hgr]

/-- C9 witness: the quantified conjuncts at a concrete one-channel
message. -/
theorem c9_scene_group_last_channel_wins_witness :
    processGetSceneResponse "GW1" initSession (.jobj [("scene", .jarr
        [.jobj [("channel", .jnum 1),
                ("data", .jarr [.jobj [("sceneId", .jnum 2), ("name", .jstr "B")]])]])])
      = ⟨{ initSession with
            scenes_result := (buildChannelScenes "GW1"
              ((dictGet [("channel", JVal.jnum 1),
                ("data", JVal.jarr [.jobj [("sceneId", .jnum 2), ("name", .jstr "B")]])]
                "channel").getD (.jnum 0))
              [.jobj [("sceneId", .jnum 2), ("name", .jstr "B")]] []).1,
            scenes_received := true }, [], none⟩
    ∧ processGetGroupResponse "GW1" initSession (.jobj [("group", .jarr
        [.jobj [("channel", .jnum 1),
                ("data", .jarr [.jobj [("groupId", .jnum 2), ("name", .jstr "B")]])]])])
      = ⟨{ initSession with
            groups_result := (buildChannelGroups "GW1"
              ((dictGet [("channel", JVal.jnum 1),
                ("data", JVal.jarr [.jobj [("groupId", .jnum 2), ("name", .jstr "B")]])]
                "channel").getD (.jnum 0))
              [.jobj [("groupId", .jnum 2), ("name", .jstr "B")]] []).1,
            groups_received := true }, [], none⟩ :=
  ⟨c9_scene_group_last_channel_wins.1 "GW1" initSession []
     [("channel", .jnum 1),
      ("data", .jarr [.jobj [("sceneId", .jnum 2), ("name", .jstr "B")]])]
     (.jarr [.jobj [("sceneId", .jnum 2), ("name", .jstr "B")]])
     [.jobj [("sceneId", .jnum 2), ("name", .jstr "B")]] rfl rfl rfl rfl,
   c9_scene_group_last_channel_wins.2.1 "GW1" initSession []
     [("channel", .jnum 1),
      ("data", .jarr [.jobj [("groupId", .jnum 2), ("name", .jstr "B")]])]
     (.jarr [.jobj [("groupId", .jnum 2), ("name", .jstr "B")]])
     [.jobj [("groupId", .jnum 2), ("name", .jstr "B")]] rfl rfl rfl rfl⟩

end PySrDali
